import Mathlib

/-!
# Scene composer and view controller: a shallow embedding

The development follows `Source/SceneManager.cpp` and `Source/ViewManager.cpp`.

* `float`/`double` values are elements of a linearly ordered field `K`
  (exact arithmetic); the literals of the source are the decimal numbers as
  written.
* Calls into the linked libraries (shader uniforms, OpenGL, mesh drawing,
  console output) are recorded, in order, in logs carried by the state.
* A pointer that the source dereferences without a check makes the
  operation return `none` when it is null.
-/

set_option autoImplicit false
set_option linter.unusedVariables false
set_option linter.unusedSectionVars false

/-! ## The linked math library (glm) -/

namespace glm

/-- Two-component vector. -/
structure vec2 (K : Type) where
  x : K
  y : K
deriving DecidableEq, Repr

/-- Three-component vector. -/
structure vec3 (K : Type) where
  x : K
  y : K
  z : K
deriving DecidableEq, Repr

/-- Four-component vector; `r g b a` of the source are `x y z w`. -/
structure vec4 (K : Type) where
  x : K
  y : K
  z : K
  w : K
deriving DecidableEq, Repr

/-- A 4x4 matrix, indexed row then column (the mathematical matrix that the
column-major storage of the library denotes). -/
abbrev mat4 (K : Type) := Matrix (Fin 4) (Fin 4) K

/-- The transcendental functions of the math library, taken as given. -/
structure Math (K : Type) where
  cos : K → K
  sin : K → K
  tan : K → K
  sqrt : K → K

variable {K : Type} [LinearOrderedField K]

/-- Degrees to radians: multiplication by the library constant for pi/180. -/
def radians (degrees : K) : K :=
  degrees * 0.01745329251994329576923690768489

/-- Scalar product of two vectors. -/
def dot (a b : vec3 K) : K :=
  a.x * b.x + a.y * b.y + a.z * b.z

/-- The vector scaled to unit length: `v * inversesqrt(dot(v, v))`. -/
def normalize (m : Math K) (v : vec3 K) : vec3 K :=
  let r := 1 / m.sqrt (dot v v)
  ⟨v.x * r, v.y * r, v.z * r⟩

/-- Scaling matrix built from a vector. -/
def scale (v : vec3 K) : mat4 K :=
  !![v.x, 0, 0, 0;
     0, v.y, 0, 0;
     0, 0, v.z, 0;
     0, 0, 0, 1]

/-- Translation matrix built from a vector. -/
def translate (v : vec3 K) : mat4 K :=
  !![1, 0, 0, v.x;
     0, 1, 0, v.y;
     0, 0, 1, v.z;
     0, 0, 0, 1]

/-- Rotation by `angle` (radians) about the axis `v`, the axis being
normalised first. -/
def rotate (m : Math K) (angle : K) (v : vec3 K) : mat4 K :=
  let c := m.cos angle
  let s := m.sin angle
  let axis := normalize m v
  let temp : vec3 K := ⟨(1 - c) * axis.x, (1 - c) * axis.y, (1 - c) * axis.z⟩
  !![c + temp.x * axis.x, temp.y * axis.x - s * axis.z, temp.z * axis.x + s * axis.y, 0;
     temp.x * axis.y + s * axis.z, c + temp.y * axis.y, temp.z * axis.y - s * axis.x, 0;
     temp.x * axis.z - s * axis.y, temp.y * axis.z + s * axis.x, c + temp.z * axis.z, 0;
     0, 0, 0, 1]

/-- Vector product. -/
def cross (a b : vec3 K) : vec3 K :=
  ⟨a.y * b.z - b.y * a.z, a.z * b.x - b.z * a.x, a.x * b.y - b.x * a.y⟩

/-- Orthographic projection (right-handed, depth range -1 to 1). -/
def ortho (left right bottom top zNear zFar : K) : mat4 K :=
  !![2 / (right - left), 0, 0, -(right + left) / (right - left);
     0, 2 / (top - bottom), 0, -(top + bottom) / (top - bottom);
     0, 0, -2 / (zFar - zNear), -(zFar + zNear) / (zFar - zNear);
     0, 0, 0, 1]

/-- Perspective projection (right-handed, depth range -1 to 1). -/
def perspective (m : Math K) (fovy aspect zNear zFar : K) : mat4 K :=
  let tanHalfFovy := m.tan (fovy / 2)
  !![1 / (aspect * tanHalfFovy), 0, 0, 0;
     0, 1 / tanHalfFovy, 0, 0;
     0, 0, -(zFar + zNear) / (zFar - zNear), -(2 * zFar * zNear) / (zFar - zNear);
     0, 0, -1, 0]

/-- View matrix of an eye looking at a point (right-handed). -/
def lookAt (m : Math K) (eye center up : vec3 K) : mat4 K :=
  let f := normalize m ⟨center.x - eye.x, center.y - eye.y, center.z - eye.z⟩
  let s := normalize m (cross f up)
  let u := cross s f
  !![s.x, s.y, s.z, -dot s eye;
     u.x, u.y, u.z, -dot u eye;
     -f.x, -f.y, -f.z, dot f eye;
     0, 0, 0, 1]

end glm

/-! ## Records of calls into the linked libraries -/

/-- One call of a setter of the shader-uniform interface. -/
inductive ShaderCall (K : Type) where
  | setIntValue (name : String) (value : Int)
  | setBoolValue (name : String) (value : Bool)
  | setFloatValue (name : String) (value : K)
  | setVec2Value (name : String) (value : glm.vec2 K)
  | setVec3Value (name : String) (value : glm.vec3 K)
  | setVec4Value (name : String) (value : glm.vec4 K)
  | setMat4Value (name : String) (value : glm.mat4 K)
  | setSampler2DValue (name : String) (value : Int)

/-- The OpenGL constants the source passes. -/
inductive GLenum where
  | GL_TEXTURE_2D
  | GL_TEXTURE_WRAP_S
  | GL_TEXTURE_WRAP_T
  | GL_TEXTURE_MIN_FILTER
  | GL_TEXTURE_MAG_FILTER
  | GL_REPEAT
  | GL_LINEAR
  | GL_RGB8
  | GL_RGBA8
  | GL_RGB
  | GL_RGBA
  | GL_UNSIGNED_BYTE
deriving DecidableEq, Repr

/-- One OpenGL call; `glActiveTexture unit` stands for
`glActiveTexture(GL_TEXTURE0 + unit)`. -/
inductive GLCall where
  | glGenTextures (name : Nat)
  | glBindTexture (target : GLenum) (texture : Nat)
  | glTexParameteri (target pname param : GLenum)
  | glTexImage2D (target : GLenum) (internalformat : GLenum) (width height : Int)
      (format type : GLenum)
  | glGenerateMipmap (target : GLenum)
  | glActiveTexture (unit : Nat)
deriving DecidableEq, Repr

/-- One call on the `ShapeMeshes` object. -/
inductive MeshCall where
  | LoadPlaneMesh
  | LoadBoxMesh
  | LoadSphereMesh
  | LoadCylinderMesh
  | LoadConeMesh
  | DrawPlaneMesh
  | DrawBoxMesh
  | DrawSphereMesh
  | DrawCylinderMesh
deriving DecidableEq, Repr

/-- Whether a mesh call is a draw call. -/
def MeshCall.isDraw : MeshCall → Bool
  | .DrawPlaneMesh => true
  | .DrawBoxMesh => true
  | .DrawSphereMesh => true
  | .DrawCylinderMesh => true
  | _ => false

/-- One item streamed to `std::cout`. -/
inductive Out (K : Type) where
  | str (s : String)
  | int (n : Int)
  | flt (x : K)
  | endl

/-! ## Data model of the scene composer -/

/-- A registered texture: the GPU name (an unsigned 32-bit value) and its tag. -/
structure TEXTURE_INFO where
  ID : Nat
  tag : String
deriving DecidableEq, Repr, Inhabited

/-- A named material. -/
structure OBJECT_MATERIAL (K : Type) where
  ambientColor : glm.vec3 K
  ambientStrength : K
  diffuseColor : glm.vec3 K
  specularColor : glm.vec3 K
  shininess : K
  tag : String
deriving DecidableEq, Repr

/-- What `stbi_load` reports about a decoded image (the pixel buffer itself is
not represented). -/
structure STBImage where
  width : Int
  height : Int
  colorChannels : Int
deriving DecidableEq, Repr

/-- The surroundings a scene composer runs in: what the image decoder returns
for a file name (`none` is the null pointer), and the texture name that
`glGenTextures` writes, given the OpenGL calls issued so far. -/
structure Env where
  stbi_load : String → Option STBImage
  glGenTextures : List GLCall → Nat

/-- The scene composer.

`m_textureIDs` is the texture array; its declared length is fixed in
`SceneManager.h`, which is not among the sources, so it is an unbounded store
here and `m_loadedTextures` (a count that starts at 0 and is only incremented)
is a natural number.  `m_pShaderManager` is `none` for the null pointer and
otherwise holds the uniform calls received so far; `m_basicMeshes` holds the
calls received by the mesh object; `gl` the OpenGL calls issued; `cout` the
console output. -/
structure SceneManager (K : Type) where
  m_pShaderManager : Option (List (ShaderCall K))
  m_basicMeshes : List MeshCall
  m_textureIDs : Nat → TEXTURE_INFO
  m_loadedTextures : Nat
  m_objectMaterials : List (OBJECT_MATERIAL K)
  gl : List GLCall
  cout : List (Out K)

/-- Conversion of an unsigned 32-bit value to `int` (two's complement). -/
def GLuint.toInt (u : Nat) : Int :=
  if u % 2 ^ 32 < 2 ^ 31 then ((u % 2 ^ 32 : Nat) : Int) else ((u % 2 ^ 32 : Nat) : Int) - 2 ^ 32

namespace SceneManager

variable {K : Type} [LinearOrderedField K]

def g_ModelName : String := "model"
def g_ColorValueName : String := "objectColor"
def g_TextureValueName : String := "objectTexture"
def g_UseTextureName : String := "bUseTexture"
def g_UseLightingName : String := "bUseLighting"

/-- The `while` loop of `FindTextureID`, from the state
`(textureID, index, bFound)`. -/
def FindTextureID.loop (m_textureIDs : Nat → TEXTURE_INFO) (m_loadedTextures : Nat)
    (tag : String) (textureID : Int) (index : Nat) (bFound : Bool) : Int :=
  if h : index < m_loadedTextures ∧ bFound = false then
    if (m_textureIDs index).tag = tag then
      FindTextureID.loop m_textureIDs m_loadedTextures tag
        (GLuint.toInt (m_textureIDs index).ID) index true
    else
      FindTextureID.loop m_textureIDs m_loadedTextures tag textureID (index + 1) bFound
  else textureID
termination_by 2 * (m_loadedTextures - index) + (if bFound then 0 else 1)
decreasing_by
  all_goals
    obtain ⟨h1, h2⟩ := h
    subst h2
    simp_wf
    try omega

/-- Texture name registered under `tag`, or -1. -/
def FindTextureID (s : SceneManager K) (tag : String) : Int :=
  FindTextureID.loop s.m_textureIDs s.m_loadedTextures tag (-1) 0 false

/-- The `while` loop of `FindTextureSlot`, from the state
`(textureSlot, index, bFound)`. -/
def FindTextureSlot.loop (m_textureIDs : Nat → TEXTURE_INFO) (m_loadedTextures : Nat)
    (tag : String) (textureSlot : Int) (index : Nat) (bFound : Bool) : Int :=
  if h : index < m_loadedTextures ∧ bFound = false then
    if (m_textureIDs index).tag = tag then
      FindTextureSlot.loop m_textureIDs m_loadedTextures tag (index : Int) index true
    else
      FindTextureSlot.loop m_textureIDs m_loadedTextures tag textureSlot (index + 1) bFound
  else textureSlot
termination_by 2 * (m_loadedTextures - index) + (if bFound then 0 else 1)
decreasing_by
  all_goals
    obtain ⟨h1, h2⟩ := h
    subst h2
    simp_wf
    try omega

/-- Slot index registered under `tag`, or -1. -/
def FindTextureSlot (s : SceneManager K) (tag : String) : Int :=
  FindTextureSlot.loop s.m_textureIDs s.m_loadedTextures tag (-1) 0 false

/-- The five assignments of `FindMaterial` on a match: every field of the
entry but its tag is copied. -/
def FindMaterial.copy (entry material : OBJECT_MATERIAL K) : OBJECT_MATERIAL K :=
  { material with
    ambientColor := entry.ambientColor
    ambientStrength := entry.ambientStrength
    diffuseColor := entry.diffuseColor
    specularColor := entry.specularColor
    shininess := entry.shininess }

/-- The `while` loop of `FindMaterial`, from the state
`(material, index, bFound)`. -/
def FindMaterial.loop (m_objectMaterials : List (OBJECT_MATERIAL K)) (tag : String)
    (material : OBJECT_MATERIAL K) (index : Nat) (bFound : Bool) : OBJECT_MATERIAL K :=
  if h : index < m_objectMaterials.length ∧ bFound = false then
    if (m_objectMaterials.get ⟨index, h.1⟩).tag = tag then
      FindMaterial.loop m_objectMaterials tag
        (FindMaterial.copy (m_objectMaterials.get ⟨index, h.1⟩) material) index true
    else
      FindMaterial.loop m_objectMaterials tag material (index + 1) bFound
  else material
termination_by 2 * (m_objectMaterials.length - index) + (if bFound then 0 else 1)
decreasing_by
  all_goals
    obtain ⟨h1, h2⟩ := h
    subst h2
    simp_wf
    try omega

/-- The returned flag together with the final contents of the reference
parameter `material`. -/
def FindMaterial (s : SceneManager K) (tag : String) (material : OBJECT_MATERIAL K) :
    Bool × OBJECT_MATERIAL K :=
  if s.m_objectMaterials.length = 0 then
    (false, material)
  else
    (true, FindMaterial.loop s.m_objectMaterials tag material 0 false)

/-- Appends calls to the log behind the shader pointer; used under the
check against null, where a null pointer means no call. -/
def shader (calls : List (ShaderCall K)) (s : SceneManager K) : SceneManager K :=
  { s with m_pShaderManager := s.m_pShaderManager.map (fun log => log ++ calls) }

/-- Appends calls to the log behind the shader pointer where the source
dereferences it unchecked: a null pointer gives `none`. -/
def shaderDeref (calls : List (ShaderCall K)) (s : SceneManager K) :
    Option (SceneManager K) :=
  match s.m_pShaderManager with
  | some log => some { s with m_pShaderManager := some (log ++ calls) }
  | none => none

/-- One call on the mesh object. -/
def mesh (c : MeshCall) (s : SceneManager K) : SceneManager K :=
  { s with m_basicMeshes := s.m_basicMeshes ++ [c] }

/-- Output streamed to the console. -/
def print (items : List (Out K)) (s : SceneManager K) : SceneManager K :=
  { s with cout := s.cout ++ items }

/-- OpenGL calls issued. -/
def glDo (calls : List GLCall) (s : SceneManager K) : SceneManager K :=
  { s with gl := s.gl ++ calls }

open GLenum in
/-- Loads a texture from an image file and registers it under `tag` in the
next free slot; returns the flag and the new state. -/
def CreateGLTexture (env : Env) (filename : String) (tag : String) (s : SceneManager K) :
    Bool × SceneManager K :=
  match env.stbi_load filename with
  | some image =>
    let s := print [.str "Successfully loaded image:", .str filename, .str ", width:",
      .int image.width, .str ", height:", .int image.height, .str ", channels:",
      .int image.colorChannels, .endl] s
    let textureID := env.glGenTextures s.gl
    let s := glDo [.glGenTextures textureID, .glBindTexture GL_TEXTURE_2D textureID,
      .glTexParameteri GL_TEXTURE_2D GL_TEXTURE_WRAP_S GL_REPEAT,
      .glTexParameteri GL_TEXTURE_2D GL_TEXTURE_WRAP_T GL_REPEAT,
      .glTexParameteri GL_TEXTURE_2D GL_TEXTURE_MIN_FILTER GL_LINEAR,
      .glTexParameteri GL_TEXTURE_2D GL_TEXTURE_MAG_FILTER GL_LINEAR] s
    let register (s : SceneManager K) : Bool × SceneManager K :=
      let s := glDo [.glGenerateMipmap GL_TEXTURE_2D, .glBindTexture GL_TEXTURE_2D 0] s
      (true,
        { s with
          m_textureIDs := Function.update s.m_textureIDs s.m_loadedTextures
            { ID := textureID, tag := tag }
          m_loadedTextures := s.m_loadedTextures + 1 })
    if image.colorChannels = 3 then
      register (glDo [.glTexImage2D GL_TEXTURE_2D GL_RGB8 image.width image.height
        GL_RGB GL_UNSIGNED_BYTE] s)
    else if image.colorChannels = 4 then
      register (glDo [.glTexImage2D GL_TEXTURE_2D GL_RGBA8 image.width image.height
        GL_RGBA GL_UNSIGNED_BYTE] s)
    else
      (false, print [.str "Not implemented to handle image with ",
        .int image.colorChannels, .str " channels", .endl] s)
  | none =>
    (false, print [.str "Could not load image:", .str filename, .endl] s)

/-- Binds the registered textures to the texture units 0, 1, 2, ... -/
def BindGLTextures (s : SceneManager K) : SceneManager K :=
  (List.range s.m_loadedTextures).foldl
    (fun s i => glDo [.glActiveTexture i,
      .glBindTexture GLenum.GL_TEXTURE_2D (s.m_textureIDs i).ID] s) s

/-- Generates a texture name into each registered entry. -/
def DestroyGLTextures (env : Env) (s : SceneManager K) : SceneManager K :=
  (List.range s.m_loadedTextures).foldl
    (fun s i =>
      let name := env.glGenTextures s.gl
      { glDo [.glGenTextures name] s with
        m_textureIDs := Function.update s.m_textureIDs i
          { s.m_textureIDs i with ID := name } }) s

/-- The matrix `SetTransformations` computes. -/
def modelView (m : glm.Math K) (scaleXYZ : glm.vec3 K)
    (XrotationDegrees YrotationDegrees ZrotationDegrees : K) (positionXYZ : glm.vec3 K) :
    glm.mat4 K :=
  let scale := glm.scale scaleXYZ
  let rotationX := glm.rotate m (glm.radians XrotationDegrees) ⟨1, 0, 0⟩
  let rotationY := glm.rotate m (glm.radians YrotationDegrees) ⟨0, 1, 0⟩
  let rotationZ := glm.rotate m (glm.radians ZrotationDegrees) ⟨0, 0, 1⟩
  let translation := glm.translate positionXYZ
  translation * rotationX * rotationY * rotationZ * scale

/-- Builds the model matrix and sets it into the shader. -/
def SetTransformations (m : glm.Math K) (scaleXYZ : glm.vec3 K)
    (XrotationDegrees YrotationDegrees ZrotationDegrees : K) (positionXYZ : glm.vec3 K)
    (s : SceneManager K) : SceneManager K :=
  shader [.setMat4Value g_ModelName
    (modelView m scaleXYZ XrotationDegrees YrotationDegrees ZrotationDegrees positionXYZ)] s

/-- Sets a flat colour into the shader and turns texturing off. -/
def SetShaderColor (redColorValue greenColorValue blueColorValue alphaValue : K)
    (s : SceneManager K) : SceneManager K :=
  let currentColor : glm.vec4 K := ⟨redColorValue, greenColorValue, blueColorValue, alphaValue⟩
  shader [.setIntValue g_UseTextureName 0, .setVec4Value g_ColorValueName currentColor] s

/-- Turns texturing on and sets the sampler to the slot found for the tag. -/
def SetShaderTexture (textureTag : String) (s : SceneManager K) : SceneManager K :=
  shader [.setIntValue g_UseTextureName 1,
    .setSampler2DValue g_TextureValueName (FindTextureSlot s textureTag)] s

/-- Sets the texture UV scale into the shader. -/
def SetTextureUVScale (u v : K) (s : SceneManager K) : SceneManager K :=
  shader [.setVec2Value "UVscale" ⟨u, v⟩] s

/-- Passes the material found for the tag into the shader.  The local
`material` is declared without an initialiser; `material₀` is what it holds
then. -/
def SetShaderMaterial (material₀ : OBJECT_MATERIAL K) (materialTag : String)
    (s : SceneManager K) : Option (SceneManager K) :=
  if s.m_objectMaterials.length > 0 then
    let r := FindMaterial s materialTag material₀
    let bReturn := r.1
    let material := r.2
    if bReturn = true then
      shaderDeref [.setVec3Value "material.ambientColor" material.ambientColor,
        .setFloatValue "material.ambientStrength" material.ambientStrength,
        .setVec3Value "material.diffuseColor" material.diffuseColor,
        .setVec3Value "material.specularColor" material.specularColor,
        .setFloatValue "material.shininess" material.shininess] s
    else some s
  else some s

/-- Loads the five scene textures, then binds what was loaded. -/
def LoadSceneTextures (env : Env) (s : SceneManager K) : SceneManager K :=
  let step (filename tag message : String) (s : SceneManager K) : SceneManager K :=
    let r := CreateGLTexture env filename tag s
    if r.1 = false then print [.str message, .endl] r.2 else r.2
  let s := step "textures/dark_wood.jpg" "deskTexture" "Failed to load desk wood texture!" s
  let s := step "textures/black_plastic.jpg" "keyboardBaseTexture"
    "Failed to load keyboard base texture!" s
  let s := step "textures/white_plastic.jpg" "keyCapTexture" "Failed to load key cap texture!" s
  let s := step "textures/key_surface.jpg" "mouseTexture" "Failed to load mouse texture!" s
  let s := step "textures/pumpkin.jpg" "pumpkinTexture" "Failed to load pumpkin texture!" s
  BindGLTextures s

/-- The desk material. -/
def deskMaterial : OBJECT_MATERIAL K :=
  { tag := "deskMaterial"
    ambientStrength := 0.3
    ambientColor := ⟨0.5, 0.35, 0.2⟩
    diffuseColor := ⟨0.6, 0.45, 0.3⟩
    specularColor := ⟨0.7, 0.7, 0.7⟩
    shininess := 32.0 }

/-- The keyboard base material. -/
def keyboardMaterial : OBJECT_MATERIAL K :=
  { tag := "keyboardMaterial"
    ambientStrength := 0.2
    ambientColor := ⟨0.2, 0.2, 0.2⟩
    diffuseColor := ⟨0.3, 0.3, 0.3⟩
    specularColor := ⟨0.5, 0.5, 0.5⟩
    shininess := 16.0 }

/-- The key cap material. -/
def keyCapMaterial : OBJECT_MATERIAL K :=
  { tag := "keyCapMaterial"
    ambientStrength := 0.2
    ambientColor := ⟨0.8, 0.8, 0.8⟩
    diffuseColor := ⟨0.9, 0.9, 0.9⟩
    specularColor := ⟨1.0, 1.0, 1.0⟩
    shininess := 64.0 }

/-- The mouse material. -/
def mouseMaterial : OBJECT_MATERIAL K :=
  { tag := "mouseMaterial"
    ambientStrength := 0.2
    ambientColor := ⟨0.3, 0.3, 0.3⟩
    diffuseColor := ⟨0.5, 0.5, 0.5⟩
    specularColor := ⟨0.7, 0.7, 0.7⟩
    shininess := 48.0 }

/-- The pumpkin material. -/
def pumpkinMaterial : OBJECT_MATERIAL K :=
  { tag := "pumpkinMaterial"
    ambientStrength := 0.3
    ambientColor := ⟨0.6, 0.3, 0.0⟩
    diffuseColor := ⟨0.8, 0.4, 0.0⟩
    specularColor := ⟨0.5, 0.5, 0.5⟩
    shininess := 8.0 }

/-- Appends the five materials of the scene, one `push_back` each. -/
def DefineObjectMaterials (s : SceneManager K) : SceneManager K :=
  let s := { s with m_objectMaterials := s.m_objectMaterials ++ [deskMaterial] }
  let s := { s with m_objectMaterials := s.m_objectMaterials ++ [keyboardMaterial] }
  let s := { s with m_objectMaterials := s.m_objectMaterials ++ [keyCapMaterial] }
  let s := { s with m_objectMaterials := s.m_objectMaterials ++ [mouseMaterial] }
  { s with m_objectMaterials := s.m_objectMaterials ++ [pumpkinMaterial] }

/-- Configures the light sources; the shader pointer is not checked. -/
def SetupSceneLights (s : SceneManager K) : Option (SceneManager K) :=
  shaderDeref [
    .setBoolValue g_UseLightingName true,
    .setBoolValue "lightSources[0].isEnabled" true,
    .setVec3Value "lightSources[0].position" ⟨0.0, 10.0, 2.0⟩,
    .setVec3Value "lightSources[0].ambientColor" ⟨0.3, 0.3, 0.3⟩,
    .setVec3Value "lightSources[0].diffuseColor" ⟨1.0, 0.95, 0.9⟩,
    .setVec3Value "lightSources[0].specularColor" ⟨1.0, 1.0, 1.0⟩,
    .setBoolValue "lightSources[1].isEnabled" true,
    .setVec3Value "lightSources[1].position" ⟨7.0, 2.0, 0.0⟩,
    .setVec3Value "lightSources[1].ambientColor" ⟨0.1, 0.05, 0.0⟩,
    .setVec3Value "lightSources[1].diffuseColor" ⟨0.8, 0.4, 0.0⟩,
    .setVec3Value "lightSources[1].specularColor" ⟨0.6, 0.3, 0.0⟩,
    .setBoolValue "lightSources[2].isEnabled" false,
    .setBoolValue "lightSources[3].isEnabled" false] s

/-- Prepares the scene: materials, lights, textures, meshes. -/
def PrepareScene (env : Env) (s : SceneManager K) : Option (SceneManager K) := do
  let s := DefineObjectMaterials s
  let s ← SetupSceneLights s
  let s := LoadSceneTextures env s
  let s := mesh .LoadPlaneMesh s
  let s := mesh .LoadBoxMesh s
  let s := mesh .LoadSphereMesh s
  let s := mesh .LoadCylinderMesh s
  let s := mesh .LoadConeMesh s
  pure s

/-- The body of the inner loop over the key columns: one key, unless the
position is skipped for the spacebar. -/
def RenderScene.key (m : glm.Math K)
    (XrotationDegrees YrotationDegrees ZrotationDegrees : K)
    (keyWidth keyHeight keyDepth keySpacingX keySpacingZ startX startZ keyY : K)
    (row col : Nat) (s : SceneManager K) : SceneManager K :=
  if row = 3 ∧ col > 2 ∧ col < 9 then
    s
  else
    let scaleXYZ : glm.vec3 K := ⟨keyWidth, keyHeight, keyDepth⟩
    let positionXYZ : glm.vec3 K :=
      ⟨startX + ((col : K) * keySpacingX), keyY, startZ + ((row : K) * keySpacingZ)⟩
    let s := SetTransformations m scaleXYZ XrotationDegrees YrotationDegrees ZrotationDegrees
      positionXYZ s
    mesh .DrawBoxMesh s

/-- The nested loops over the key rows and columns. -/
def RenderScene.keys (m : glm.Math K)
    (XrotationDegrees YrotationDegrees ZrotationDegrees : K)
    (keyWidth keyHeight keyDepth keySpacingX keySpacingZ startX startZ keyY : K)
    (rows keysPerRow : Nat) (s : SceneManager K) : SceneManager K :=
  (List.range rows).foldl
    (fun s row =>
      (List.range keysPerRow).foldl
        (fun s col =>
          RenderScene.key m XrotationDegrees YrotationDegrees ZrotationDegrees
            keyWidth keyHeight keyDepth keySpacingX keySpacingZ startX startZ keyY row col s)
        s)
    s

/-- Renders the scene: desk, keyboard, mouse, decoration.  `material₀` is the
content of the uninitialised local of `SetShaderMaterial`. -/
def RenderScene (m : glm.Math K) (material₀ : OBJECT_MATERIAL K) (s : SceneManager K) :
    Option (SceneManager K) := do
  let XrotationDegrees : K := 0.0
  let YrotationDegrees : K := 0.0
  let ZrotationDegrees : K := 0.0
  -- desk surface
  let scaleXYZ : glm.vec3 K := ⟨20.0, 0.5, 10.0⟩
  let positionXYZ : glm.vec3 K := ⟨0.0, -0.25, 0.0⟩
  let s := SetTransformations m scaleXYZ XrotationDegrees YrotationDegrees ZrotationDegrees
    positionXYZ s
  let s ← SetShaderMaterial material₀ "deskMaterial" s
  let s := SetShaderTexture "deskTexture" s
  let s := SetTextureUVScale 4.0 2.0 s
  let s := mesh .DrawPlaneMesh s
  -- keyboard
  let keyboardXPosition : K := -5.0
  -- keyboard base
  let scaleXYZ : glm.vec3 K := ⟨7.0, 0.2, 3.0⟩
  let positionXYZ : glm.vec3 K := ⟨keyboardXPosition, 0.1, 0.0⟩
  let s := SetTransformations m scaleXYZ XrotationDegrees YrotationDegrees ZrotationDegrees
    positionXYZ s
  let s ← SetShaderMaterial material₀ "keyboardMaterial" s
  let s := SetShaderTexture "keyboardBaseTexture" s
  let s := SetTextureUVScale 2.0 1.0 s
  let s := mesh .DrawBoxMesh s
  -- keyboard accent trim
  let scaleXYZ : glm.vec3 K := ⟨7.2, 0.05, 3.2⟩
  let positionXYZ : glm.vec3 K := ⟨keyboardXPosition, 0.05, 0.0⟩
  let s := SetTransformations m scaleXYZ XrotationDegrees YrotationDegrees ZrotationDegrees
    positionXYZ s
  let s ← SetShaderMaterial material₀ "keyboardMaterial" s
  let s := SetShaderColor 0.7 0.7 0.7 1.0 s
  let s := mesh .DrawBoxMesh s
  -- key dimensions and spacing
  let keyWidth : K := 0.45
  let keyHeight : K := 0.15
  let keyDepth : K := 0.45
  let keySpacingX : K := 0.55
  let keySpacingZ : K := 0.55
  let keyboardWidth : K := 7.0
  let keyboardDepth : K := 3.0
  let startX : K := keyboardXPosition - (keyboardWidth / 2) + (keyWidth / 2) + 0.3
  let startZ : K := -(keyboardDepth / 2) + (keyDepth / 2) + 0.3
  let keyY : K := 0.2 + (keyHeight / 2)
  let keysPerRow : Nat := 12
  let rows : Nat := 4
  let s ← SetShaderMaterial material₀ "keyCapMaterial" s
  let s := SetShaderTexture "keyCapTexture" s
  let s := SetTextureUVScale 1.0 1.0 s
  let s := RenderScene.keys m XrotationDegrees YrotationDegrees ZrotationDegrees
    keyWidth keyHeight keyDepth keySpacingX keySpacingZ startX startZ keyY rows keysPerRow s
  -- spacebar
  let scaleXYZ : glm.vec3 K := ⟨keyWidth * 6, keyHeight, keyDepth⟩
  let positionXYZ : glm.vec3 K :=
    ⟨startX + (5.5 * keySpacingX), keyY, startZ + (3 * keySpacingZ)⟩
  let s := SetTransformations m scaleXYZ XrotationDegrees YrotationDegrees ZrotationDegrees
    positionXYZ s
  let s ← SetShaderMaterial material₀ "keyCapMaterial" s
  let s := SetTextureUVScale 6.0 1.0 s
  let s := mesh .DrawBoxMesh s
  -- mouse
  let mouseXPosition : K := 1.0
  let mouseZPosition : K := 0.0
  let scaleXYZ : glm.vec3 K := ⟨1.8, 0.6, 2.5⟩
  let positionXYZ : glm.vec3 K := ⟨mouseXPosition, 0.3, mouseZPosition⟩
  let s := SetTransformations m scaleXYZ XrotationDegrees YrotationDegrees ZrotationDegrees
    positionXYZ s
  let s ← SetShaderMaterial material₀ "mouseMaterial" s
  let s := SetShaderTexture "mouseTexture" s
  let s := SetTextureUVScale 1.0 1.0 s
  let s := mesh .DrawBoxMesh s
  let scaleXYZ : glm.vec3 K := ⟨1.8, 0.4, 2.5⟩
  let positionXYZ : glm.vec3 K := ⟨mouseXPosition, 0.65, mouseZPosition⟩
  let s := SetTransformations m scaleXYZ 0.0 0.0 0.0 positionXYZ s
  let s ← SetShaderMaterial material₀ "mouseMaterial" s
  let s := SetShaderTexture "mouseTexture" s
  let s := SetTextureUVScale 1.0 0.5 s
  let s := mesh .DrawSphereMesh s
  -- Halloween gadget
  let pumpkinXPosition : K := 7.0
  let pumpkinZPosition : K := 0.0
  let scaleXYZ : glm.vec3 K := ⟨1.2, 1.5, 1.2⟩
  let positionXYZ : glm.vec3 K := ⟨pumpkinXPosition, 0.75, pumpkinZPosition⟩
  let s := SetTransformations m scaleXYZ 0.0 0.0 0.0 positionXYZ s
  let s ← SetShaderMaterial material₀ "pumpkinMaterial" s
  let s := SetShaderTexture "pumpkinTexture" s
  let s := SetTextureUVScale 1.0 1.0 s
  let s := mesh .DrawCylinderMesh s
  let scaleXYZ : glm.vec3 K := ⟨1.3, 1.3, 1.3⟩
  let positionXYZ : glm.vec3 K := ⟨pumpkinXPosition, 2.0, pumpkinZPosition⟩
  let s := SetTransformations m scaleXYZ 0.0 0.0 0.0 positionXYZ s
  let s ← SetShaderMaterial material₀ "pumpkinMaterial" s
  let s := SetShaderTexture "mouseTexture" s
  let s := SetTextureUVScale 1.0 1.0 s
  let s := mesh .DrawSphereMesh s
  pure s

end SceneManager

/-! ## Data model of the view controller -/

/-- The camera object: the members the sources read or write, and `hidden`
for the members of the class they do not show. -/
structure Camera (K H : Type) where
  Position : glm.vec3 K
  Front : glm.vec3 K
  Up : glm.vec3 K
  Zoom : K
  MovementSpeed : K
  hidden : H

/-- Directions of camera movement. -/
inductive Camera_Movement where
  | FORWARD
  | BACKWARD
  | LEFT
  | RIGHT
  | UP
  | DOWN
deriving DecidableEq, Repr

/-- The methods of the camera class, taken as given (the class is declared in
a header that is not among the sources). -/
structure CameraClass (K H : Type) where
  ProcessKeyboard : Camera K H → Camera_Movement → K → Camera K H
  ProcessMouseMovement : Camera K H → K → K → Camera K H
  GetViewMatrix : Camera K H → glm.mat4 K

/-- The keys the view controller polls. -/
inductive Key where
  | GLFW_KEY_ESCAPE
  | GLFW_KEY_P
  | GLFW_KEY_O
  | GLFW_KEY_W
  | GLFW_KEY_S
  | GLFW_KEY_A
  | GLFW_KEY_D
  | GLFW_KEY_Q
  | GLFW_KEY_E
deriving DecidableEq, Repr

/-- The two values `glfwGetKey` returns. -/
inductive KeyState where
  | GLFW_RELEASE
  | GLFW_PRESS
deriving DecidableEq, Repr

/-- The window, as far as the view controller acts on it. -/
structure GLFWwindow where
  shouldClose : Bool
deriving DecidableEq, Repr

/-- The view controller: its members, the file-scope variables of
`ViewManager.cpp` and the two function-static latches of
`ProcessKeyboardEvents`.  The camera pointer is set by the constructor and the
window exists when keys are polled. -/
structure ViewManager (K H : Type) where
  m_pShaderManager : Option (List (ShaderCall K))
  m_pWindow : GLFWwindow
  g_pCamera : Camera K H
  gLastX : K
  gLastY : K
  gFirstMouse : Bool
  gDeltaTime : K
  gLastFrame : K
  g_MovementSpeedMultiplier : K
  bOrthographicProjection : Bool
  pKeyPressed : Bool
  oKeyPressed : Bool
  cout : List (Out K)

namespace ViewManager

variable {K H : Type} [LinearOrderedField K]

def WINDOW_WIDTH : Int := 1000
def WINDOW_HEIGHT : Int := 800
def g_ViewName : String := "view"
def g_ProjectionName : String := "projection"

/-- The state after the constructor, with the initial values of the file-scope
variables and of the latches; `hidden` is what `new Camera()` leaves in the
members not shown, `window` the window. -/
def init (pShaderManager : Option (List (ShaderCall K))) (window : GLFWwindow) (hidden : H) :
    ViewManager K H :=
  { m_pShaderManager := pShaderManager
    m_pWindow := window
    g_pCamera :=
      { Position := ⟨0.0, 5.0, 12.0⟩
        Front := ⟨0.0, -0.5, -2.0⟩
        Up := ⟨0.0, 1.0, 0.0⟩
        Zoom := 80
        MovementSpeed := 10.0
        hidden := hidden }
    gLastX := (WINDOW_WIDTH : K) / 2.0
    gLastY := (WINDOW_HEIGHT : K) / 2.0
    gFirstMouse := true
    gDeltaTime := 0.0
    gLastFrame := 0.0
    g_MovementSpeedMultiplier := 1.0
    bOrthographicProjection := false
    pKeyPressed := false
    oKeyPressed := false
    cout := [] }

/-- Called when the mouse moves in the window. -/
def Mouse_Position_Callback (cam : CameraClass K H) (xMousePos yMousePos : K)
    (v : ViewManager K H) : ViewManager K H :=
  let v :=
    if v.gFirstMouse = true then
      { v with gLastX := xMousePos, gLastY := yMousePos, gFirstMouse := false }
    else v
  let xOffset := xMousePos - v.gLastX
  let yOffset := v.gLastY - yMousePos
  let sensitivity : K := 0.05
  let xOffset := xOffset * sensitivity
  let yOffset := yOffset * sensitivity
  let v := { v with gLastX := xMousePos, gLastY := yMousePos }
  { v with g_pCamera := cam.ProcessMouseMovement v.g_pCamera xOffset yOffset }

/-- Called when the scroll wheel moves in the window. -/
def MouseScrollCallback (xOffset yOffset : K) (v : ViewManager K H) : ViewManager K H :=
  let v := { v with g_MovementSpeedMultiplier := v.g_MovementSpeedMultiplier + yOffset * 0.1 }
  let v := if v.g_MovementSpeedMultiplier < 0.1 then
      { v with g_MovementSpeedMultiplier := 0.1 } else v
  let v := if v.g_MovementSpeedMultiplier > 3.0 then
      { v with g_MovementSpeedMultiplier := 3.0 } else v
  let v := { v with
    g_pCamera := { v.g_pCamera with MovementSpeed := 10.0 * v.g_MovementSpeedMultiplier } }
  { v with cout := v.cout ++ [.str "Camera speed: ", .flt v.g_pCamera.MovementSpeed, .endl] }

open Key KeyState in
/-- The Escape key: asks the window to close. -/
def ProcessKeyboardEvents.escape (glfwGetKey : Key → KeyState) (v : ViewManager K H) :
    ViewManager K H :=
  if glfwGetKey GLFW_KEY_ESCAPE = GLFW_PRESS then
    { v with m_pWindow := { v.m_pWindow with shouldClose := true } }
  else v

open Key KeyState in
/-- The P key, with its latch `pKeyPressed`. -/
def ProcessKeyboardEvents.keyP (glfwGetKey : Key → KeyState) (v : ViewManager K H) :
    ViewManager K H :=
  if glfwGetKey GLFW_KEY_P = GLFW_PRESS ∧ v.pKeyPressed = false then
    { v with
      bOrthographicProjection := false
      pKeyPressed := true
      cout := v.cout ++ [.str "Switched to Perspective Projection", .endl] }
  else if glfwGetKey GLFW_KEY_P = GLFW_RELEASE then
    { v with pKeyPressed := false }
  else v

open Key KeyState in
/-- The O key, with its latch `oKeyPressed`. -/
def ProcessKeyboardEvents.keyO (glfwGetKey : Key → KeyState) (v : ViewManager K H) :
    ViewManager K H :=
  if glfwGetKey GLFW_KEY_O = GLFW_PRESS ∧ v.oKeyPressed = false then
    { v with
      bOrthographicProjection := true
      oKeyPressed := true
      cout := v.cout ++ [.str "Switched to Orthographic Projection", .endl] }
  else if glfwGetKey GLFW_KEY_O = GLFW_RELEASE then
    { v with oKeyPressed := false }
  else v

/-- A movement key: moves the camera when the key is down. -/
def ProcessKeyboardEvents.move (cam : CameraClass K H) (glfwGetKey : Key → KeyState)
    (key : Key) (direction : Camera_Movement) (v : ViewManager K H) : ViewManager K H :=
  if glfwGetKey key = KeyState.GLFW_PRESS then
    { v with g_pCamera := cam.ProcessKeyboard v.g_pCamera direction v.gDeltaTime }
  else v

open Key Camera_Movement in
/-- Processes the polled key states of one frame; `glfwGetKey` is what the
poll of each key returns in this frame.  The statements of the source run in
order: Escape, P, O, then W, S, A, D, Q, E. -/
def ProcessKeyboardEvents (cam : CameraClass K H) (glfwGetKey : Key → KeyState)
    (v : ViewManager K H) : ViewManager K H :=
  let v := ProcessKeyboardEvents.escape glfwGetKey v
  let v := ProcessKeyboardEvents.keyP glfwGetKey v
  let v := ProcessKeyboardEvents.keyO glfwGetKey v
  let v := ProcessKeyboardEvents.move cam glfwGetKey GLFW_KEY_W FORWARD v
  let v := ProcessKeyboardEvents.move cam glfwGetKey GLFW_KEY_S BACKWARD v
  let v := ProcessKeyboardEvents.move cam glfwGetKey GLFW_KEY_A LEFT v
  let v := ProcessKeyboardEvents.move cam glfwGetKey GLFW_KEY_D RIGHT v
  let v := ProcessKeyboardEvents.move cam glfwGetKey GLFW_KEY_Q UP v
  ProcessKeyboardEvents.move cam glfwGetKey GLFW_KEY_E DOWN v

/-- Prepares the view of one frame: timing, keyboard, then the view and
projection matrices and the view position set into the shader.
`glfwGetTime` is the time the library reports in this frame. -/
def PrepareSceneView (m : glm.Math K) (cam : CameraClass K H) (glfwGetTime : K)
    (glfwGetKey : Key → KeyState) (v : ViewManager K H) : ViewManager K H :=
  let currentFrame := glfwGetTime
  let v := { v with gDeltaTime := currentFrame - v.gLastFrame }
  let v := { v with gLastFrame := currentFrame }
  let v := ProcessKeyboardEvents cam glfwGetKey v
  let vp : glm.mat4 K × glm.mat4 K :=
    if v.bOrthographicProjection = true then
      let aspectRatio : K := (WINDOW_WIDTH : K) / (WINDOW_HEIGHT : K)
      let orthoSize : K := 10.0
      let projection := glm.ortho (-orthoSize * aspectRatio) (orthoSize * aspectRatio)
        (-orthoSize) orthoSize 0.1 100.0
      let view := glm.lookAt m ⟨0.0, 15.0, 0.1⟩ ⟨0.0, 0.0, 0.0⟩ ⟨0.0, 0.0, -1.0⟩
      (view, projection)
    else
      let view := cam.GetViewMatrix v.g_pCamera
      let projection := glm.perspective m (glm.radians v.g_pCamera.Zoom)
        ((WINDOW_WIDTH : K) / (WINDOW_HEIGHT : K)) 0.1 100.0
      (view, projection)
  let view := vp.1
  let projection := vp.2
  match v.m_pShaderManager with
  | some log =>
    let log := log ++ [.setMat4Value g_ViewName view]
    let log := log ++ [.setMat4Value g_ProjectionName projection]
    let log :=
      if v.bOrthographicProjection = true then
        log ++ [.setVec3Value "viewPosition" ⟨0.0, 15.0, 0.1⟩]
      else
        log ++ [.setVec3Value "viewPosition" v.g_pCamera.Position]
    { v with m_pShaderManager := some log }
  | none => v

end ViewManager

/-- The uniform calls `SetShaderMaterial` makes when it runs to its end: none
on an empty material table, and otherwise the five coefficients that
`FindMaterial` leaves in the local `material`. -/
def SceneManager.materialCalls {K : Type} [LinearOrderedField K]
    (material₀ : OBJECT_MATERIAL K) (materialTag : String) (s : SceneManager K) :
    List (ShaderCall K) :=
  if s.m_objectMaterials.length > 0 then
    let material := (SceneManager.FindMaterial s materialTag material₀).2
    [.setVec3Value "material.ambientColor" material.ambientColor,
      .setFloatValue "material.ambientStrength" material.ambientStrength,
      .setVec3Value "material.diffuseColor" material.diffuseColor,
      .setVec3Value "material.specularColor" material.specularColor,
      .setFloatValue "material.shininess" material.shininess]
  else []

/-- The states on which no unchecked use of the shader pointer by
`SetShaderMaterial` meets a null pointer: the pointer is not null, or the
material table is empty. -/
def SceneManager.materialSafe {K : Type} (s : SceneManager K) : Prop :=
  s.m_pShaderManager ≠ none ∨ s.m_objectMaterials = []

/-- The mesh calls of one `RenderScene`, in order. -/
def SceneManager.sceneDraws : List MeshCall :=
  [.DrawPlaneMesh] ++ [.DrawBoxMesh] ++ [.DrawBoxMesh] ++ List.replicate 42 .DrawBoxMesh
    ++ [.DrawBoxMesh] ++ [.DrawBoxMesh, .DrawSphereMesh] ++ [.DrawCylinderMesh, .DrawSphereMesh]

/-- Consecutive calls of `ProcessKeyboardEvents`, one per frame, on the key
states polled in each frame. -/
def ViewManager.frames {K H : Type} [LinearOrderedField K] (cam : CameraClass K H)
    (polls : List (Key → KeyState)) (v : ViewManager K H) : ViewManager K H :=
  polls.foldl (fun v glfwGetKey => ViewManager.ProcessKeyboardEvents cam glfwGetKey v) v

/-- Consecutive calls of `MouseScrollCallback`, one per scroll event; an event
is the pair (xOffset, yOffset). -/
def ViewManager.scrollEvents {K H : Type} [LinearOrderedField K] (events : List (K × K))
    (v : ViewManager K H) : ViewManager K H :=
  events.foldl (fun v e => ViewManager.MouseScrollCallback e.1 e.2 v) v

/-- Whether frame `i` of a sequence of polls has a fresh press of `key`: the
key is down in frame `i` and was not down in frame `i - 1`; in frame 0 a key
that is down is freshly pressed. -/
def ViewManager.freshPress (polls : List (Key → KeyState)) (key : Key) (i : Nat) : Bool :=
  match polls[i]? with
  | none => false
  | some p =>
    decide (p key = KeyState.GLFW_PRESS) &&
      (i == 0 ||
        match polls[i - 1]? with
        | none => true
        | some q => decide (q key = KeyState.GLFW_RELEASE))

/-- Whether `key` is down in the last frame of a sequence of polls (false for
the empty sequence). -/
def ViewManager.lastDown (polls : List (Key → KeyState)) (key : Key) : Bool :=
  match polls.getLast? with
  | none => false
  | some q => decide (q key = KeyState.GLFW_PRESS)

/-! ## Concrete states on which the statements below are exercised -/

/-- A texture array with three registered entries, two of them under the same
tag. -/
def exampleTextures : Nat → TEXTURE_INFO :=
  fun i => [⟨7, "desk"⟩, ⟨9, "keys"⟩, ⟨11, "desk"⟩].getD i ⟨0, ""⟩

/-- A material with every coefficient equal to `c`. -/
def exampleMaterial (tag : String) (c : ℚ) : OBJECT_MATERIAL ℚ :=
  { tag := tag
    ambientColor := ⟨c, c, c⟩
    ambientStrength := c
    diffuseColor := ⟨c, c, c⟩
    specularColor := ⟨c, c, c⟩
    shininess := c }

/-- A scene composer with a shader, three textures and three materials, with a
duplicate tag among the textures and among the materials. -/
def exampleScene : SceneManager ℚ :=
  { m_pShaderManager := some []
    m_basicMeshes := []
    m_textureIDs := exampleTextures
    m_loadedTextures := 3
    m_objectMaterials :=
      [exampleMaterial "desk" 1, exampleMaterial "mouse" 2, exampleMaterial "desk" 3]
    gl := []
    cout := [] }

/-- A freshly constructed scene composer with a shader: no texture, no
material. -/
def emptyScene : SceneManager ℚ :=
  { m_pShaderManager := some []
    m_basicMeshes := []
    m_textureIDs := fun _ => ⟨0, ""⟩
    m_loadedTextures := 0
    m_objectMaterials := []
    gl := []
    cout := [] }

/-- Surroundings in which one file decodes to an RGB image, one to a
single-channel image, and every other file fails to decode. -/
def exampleEnv : Env :=
  { stbi_load := fun filename =>
      if filename = "textures/pumpkin.jpg" then some ⟨64, 32, 3⟩
      else if filename = "textures/gray.jpg" then some ⟨64, 32, 1⟩
      else none
    glGenTextures := fun calls => calls.length + 1 }

/-- A camera class whose methods leave the camera as it is. -/
def exampleCameraClass : CameraClass ℚ Unit :=
  { ProcessKeyboard := fun c _ _ => c
    ProcessMouseMovement := fun c _ _ => c
    GetViewMatrix := fun _ => 1 }

/-- The view controller right after construction, with a shader and an open
window. -/
def exampleView : ViewManager ℚ Unit :=
  ViewManager.init (some []) ⟨false⟩ ()

/-- A frame in which the O key is down and every other key is up. -/
def holdO : Key → KeyState :=
  fun key => if key = Key.GLFW_KEY_O then KeyState.GLFW_PRESS else KeyState.GLFW_RELEASE

/-- Stand-ins for the transcendental functions over the rationals, exact at
the argument 0 (and `sqrt` at 0 and 1); used where the statement exercised
holds whatever these functions are. -/
def exampleMath : glm.Math ℚ :=
  { cos := fun _ => 1
    sin := fun _ => 0
    tan := fun _ => 0
    sqrt := fun x => x }

/-- A view controller that differs from `exampleView` in every member of its
camera. -/
def exampleView2 : ViewManager ℚ Unit :=
  { exampleView with
    g_pCamera :=
      { Position := ⟨3, 1, -4⟩
        Front := ⟨1, 0, 0⟩
        Up := ⟨0, 0, 1⟩
        Zoom := 45
        MovementSpeed := 2
        hidden := () } }

/-- A frame in which every key is up. -/
def noKeys : Key → KeyState :=
  fun _ => KeyState.GLFW_RELEASE

/-- A frame in which the P key and the O key are down and every other key is
up. -/
def holdPO : Key → KeyState :=
  fun key =>
    if key = Key.GLFW_KEY_P ∨ key = Key.GLFW_KEY_O then KeyState.GLFW_PRESS
    else KeyState.GLFW_RELEASE

/-! ## Lookup loops -/

namespace SceneManager

variable {K : Type} [LinearOrderedField K]

theorem FindTextureSlot_loop_found (tbl : Nat → TEXTURE_INFO) (n : Nat) (tag : String)
    (slot : Int) (index : Nat) :
    FindTextureSlot.loop tbl n tag slot index true = slot := by
  rw [FindTextureSlot.loop]; simp

theorem FindTextureSlot_loop_miss (tbl : Nat → TEXTURE_INFO) (n : Nat) (tag : String)
    (slot : Int) :
    ∀ (k index : Nat), n - index = k →
      (∀ i, index ≤ i → i < n → (tbl i).tag ≠ tag) →
      FindTextureSlot.loop tbl n tag slot index false = slot := by
  intro k
  induction k with
  | zero =>
    intro index hk _
    rw [FindTextureSlot.loop]
    have : ¬ index < n := by omega
    simp [this]
  | succ k ih =>
    intro index hk hmiss
    rw [FindTextureSlot.loop]
    have hlt : index < n := by omega
    have hne : (tbl index).tag ≠ tag := hmiss index (le_refl _) hlt
    simp only [hlt, and_self, dite_true, if_neg hne]
    exact ih (index + 1) (by omega) (fun i hi hin => hmiss i (by omega) hin)

theorem FindTextureSlot_loop_hit (tbl : Nat → TEXTURE_INFO) (n : Nat) (tag : String)
    (slot : Int) (i : Nat) (hi : i < n) (htag : (tbl i).tag = tag) :
    ∀ (k index : Nat), i - index = k → index ≤ i →
      (∀ j, index ≤ j → j < i → (tbl j).tag ≠ tag) →
      FindTextureSlot.loop tbl n tag slot index false = (i : Int) := by
  intro k
  induction k with
  | zero =>
    intro index hk hle _
    have : index = i := by omega
    subst this
    rw [FindTextureSlot.loop]
    simp only [hi, and_self, dite_true, if_pos htag]
    exact FindTextureSlot_loop_found tbl n tag _ _
  | succ k ih =>
    intro index hk hle hmiss
    rw [FindTextureSlot.loop]
    have hlt : index < n := by omega
    have hne : (tbl index).tag ≠ tag := hmiss index (le_refl _) (by omega)
    simp only [hlt, and_self, dite_true, if_neg hne]
    exact ih (index + 1) (by omega) (by omega) (fun j hj hji => hmiss j (by omega) hji)

theorem FindTextureID_loop_found (tbl : Nat → TEXTURE_INFO) (n : Nat) (tag : String)
    (textureID : Int) (index : Nat) :
    FindTextureID.loop tbl n tag textureID index true = textureID := by
  rw [FindTextureID.loop]; simp

theorem FindTextureID_loop_miss (tbl : Nat → TEXTURE_INFO) (n : Nat) (tag : String)
    (textureID : Int) :
    ∀ (k index : Nat), n - index = k →
      (∀ i, index ≤ i → i < n → (tbl i).tag ≠ tag) →
      FindTextureID.loop tbl n tag textureID index false = textureID := by
  intro k
  induction k with
  | zero =>
    intro index hk _
    rw [FindTextureID.loop]
    have : ¬ index < n := by omega
    simp [this]
  | succ k ih =>
    intro index hk hmiss
    rw [FindTextureID.loop]
    have hlt : index < n := by omega
    have hne : (tbl index).tag ≠ tag := hmiss index (le_refl _) hlt
    simp only [hlt, and_self, dite_true, if_neg hne]
    exact ih (index + 1) (by omega) (fun i hi hin => hmiss i (by omega) hin)

theorem FindTextureID_loop_hit (tbl : Nat → TEXTURE_INFO) (n : Nat) (tag : String)
    (textureID : Int) (i : Nat) (hi : i < n) (htag : (tbl i).tag = tag) :
    ∀ (k index : Nat), i - index = k → index ≤ i →
      (∀ j, index ≤ j → j < i → (tbl j).tag ≠ tag) →
      FindTextureID.loop tbl n tag textureID index false = GLuint.toInt (tbl i).ID := by
  intro k
  induction k with
  | zero =>
    intro index hk hle _
    have : index = i := by omega
    subst this
    rw [FindTextureID.loop]
    simp only [hi, and_self, dite_true, if_pos htag]
    exact FindTextureID_loop_found tbl n tag _ _
  | succ k ih =>
    intro index hk hle hmiss
    rw [FindTextureID.loop]
    have hlt : index < n := by omega
    have hne : (tbl index).tag ≠ tag := hmiss index (le_refl _) (by omega)
    simp only [hlt, and_self, dite_true, if_neg hne]
    exact ih (index + 1) (by omega) (by omega) (fun j hj hji => hmiss j (by omega) hji)

theorem FindMaterial_loop_found (mats : List (OBJECT_MATERIAL K)) (tag : String)
    (material : OBJECT_MATERIAL K) (index : Nat) :
    FindMaterial.loop mats tag material index true = material := by
  rw [FindMaterial.loop]; simp

theorem FindMaterial_loop_miss (mats : List (OBJECT_MATERIAL K)) (tag : String)
    (material : OBJECT_MATERIAL K) :
    ∀ (k index : Nat), mats.length - index = k →
      (∀ (i : Nat) (h : i < mats.length), index ≤ i → (mats.get ⟨i, h⟩).tag ≠ tag) →
      FindMaterial.loop mats tag material index false = material := by
  intro k
  induction k with
  | zero =>
    intro index hk _
    rw [FindMaterial.loop]
    have : ¬ index < mats.length := by omega
    simp [this]
  | succ k ih =>
    intro index hk hmiss
    rw [FindMaterial.loop]
    have hlt : index < mats.length := by omega
    have hne : (mats.get ⟨index, hlt⟩).tag ≠ tag := hmiss index hlt (le_refl _)
    simp only [hlt, and_self, dite_true, if_neg hne]
    exact ih (index + 1) (by omega) (fun i h hi => hmiss i h (by omega))

theorem FindMaterial_loop_hit (mats : List (OBJECT_MATERIAL K)) (tag : String)
    (material : OBJECT_MATERIAL K) (i : Nat) (hi : i < mats.length)
    (htag : (mats.get ⟨i, hi⟩).tag = tag) :
    ∀ (k index : Nat), i - index = k → index ≤ i →
      (∀ (j : Nat) (h : j < mats.length), index ≤ j → j < i → (mats.get ⟨j, h⟩).tag ≠ tag) →
      FindMaterial.loop mats tag material index false
        = FindMaterial.copy (mats.get ⟨i, hi⟩) material := by
  intro k
  induction k with
  | zero =>
    intro index hk hle _
    have : index = i := by omega
    subst this
    rw [FindMaterial.loop]
    simp only [hi, and_self, dite_true, if_pos htag]
    exact FindMaterial_loop_found mats tag _ _
  | succ k ih =>
    intro index hk hle hmiss
    rw [FindMaterial.loop]
    have hlt : index < mats.length := by omega
    have hne : (mats.get ⟨index, hlt⟩).tag ≠ tag := hmiss index hlt (le_refl _) (by omega)
    simp only [hlt, and_self, dite_true, if_neg hne]
    exact ih (index + 1) (by omega) (by omega) (fun j h hj hji => hmiss j h (by omega) hji)

end SceneManager

/-! ## Lookups by tag -/

namespace SceneManager

variable {K : Type} [LinearOrderedField K]

/-- C1. A tag that none of the first `m_loadedTextures` entries carries is
reported as not found by both texture lookups: each returns -1.  The empty
table is the case `m_loadedTextures = 0`. -/
theorem find_texture_unregistered (s : SceneManager K) (tag : String)
    (h : ∀ i, i < s.m_loadedTextures → (s.m_textureIDs i).tag ≠ tag) :
    s.FindTextureSlot tag = -1 ∧ s.FindTextureID tag = -1 := by
  constructor
  · exact FindTextureSlot_loop_miss _ _ _ _ _ 0 rfl (fun i _ hi => h i hi)
  · exact FindTextureID_loop_miss _ _ _ _ _ 0 rfl (fun i _ hi => h i hi)

theorem exampleScene_lacks_pumpkin :
    ∀ i, i < exampleScene.m_loadedTextures →
      (exampleScene.m_textureIDs i).tag ≠ "pumpkinTexture" := by
  intro i hi
  have hi3 : i < 3 := hi
  interval_cases i <;> decide

/-- C1 on a table of three entries without the tag, and on the empty table. -/
theorem find_texture_unregistered_witness :
    (∀ i, i < exampleScene.m_loadedTextures →
      (exampleScene.m_textureIDs i).tag ≠ "pumpkinTexture") ∧
    (exampleScene.FindTextureSlot "pumpkinTexture" = -1 ∧
      exampleScene.FindTextureID "pumpkinTexture" = -1) ∧
    (emptyScene.FindTextureSlot "pumpkinTexture" = -1 ∧
      emptyScene.FindTextureID "pumpkinTexture" = -1) :=
  ⟨exampleScene_lacks_pumpkin,
    find_texture_unregistered exampleScene "pumpkinTexture" exampleScene_lacks_pumpkin,
    find_texture_unregistered emptyScene "pumpkinTexture" (fun i hi => absurd hi (Nat.not_lt_zero i))⟩

/-- C2. On a non-empty material table (`e :: rest`) `FindMaterial` returns
true whatever the tag, and when no entry carries the tag the reference
parameter comes back exactly as passed; on the empty table it returns false
and the parameter comes back as passed. -/
theorem find_material_flag (s : SceneManager K) (tag : String) (out : OBJECT_MATERIAL K)
    (e : OBJECT_MATERIAL K) (rest : List (OBJECT_MATERIAL K)) :
    (FindMaterial { s with m_objectMaterials := e :: rest } tag out).1 = true ∧
    ((∀ x ∈ e :: rest, x.tag ≠ tag) →
      (FindMaterial { s with m_objectMaterials := e :: rest } tag out).2 = out) ∧
    FindMaterial { s with m_objectMaterials := [] } tag out = (false, out) := by
  refine ⟨?_, ?_, ?_⟩
  · simp [FindMaterial]
  · intro hmiss
    simp only [FindMaterial, List.length_cons, Nat.succ_ne_zero, if_false]
    exact FindMaterial_loop_miss _ _ _ _ 0 rfl
      (fun i h _ => hmiss _ (List.get_mem _ _ _))
  · simp [FindMaterial]

/-- C2 on a table of two materials, asked for a tag neither carries. -/
theorem find_material_flag_witness :
    (∀ x ∈ [exampleMaterial "deskMaterial" 1, exampleMaterial "mouseMaterial" 2],
      x.tag ≠ "pumpkinMaterial") ∧
    (FindMaterial { emptyScene with m_objectMaterials :=
        [exampleMaterial "deskMaterial" 1, exampleMaterial "mouseMaterial" 2] }
      "pumpkinMaterial" (exampleMaterial "out" 5)).1 = true ∧
    (FindMaterial { emptyScene with m_objectMaterials :=
        [exampleMaterial "deskMaterial" 1, exampleMaterial "mouseMaterial" 2] }
      "pumpkinMaterial" (exampleMaterial "out" 5)).2 = exampleMaterial "out" 5 ∧
    FindMaterial { emptyScene with m_objectMaterials := [] }
      "pumpkinMaterial" (exampleMaterial "out" 5) = (false, exampleMaterial "out" 5) :=
  have hmiss : ∀ x ∈ [exampleMaterial "deskMaterial" 1, exampleMaterial "mouseMaterial" 2],
      x.tag ≠ "pumpkinMaterial" := by
    intro x hx
    simp only [List.mem_cons, List.mem_singleton, List.not_mem_nil, or_false] at hx
    rcases hx with rfl | rfl <;> decide
  have h := find_material_flag emptyScene "pumpkinMaterial" (exampleMaterial "out" 5)
    (exampleMaterial "deskMaterial" 1) [exampleMaterial "mouseMaterial" 2]
  ⟨hmiss, h.1, h.2.1 hmiss, h.2.2⟩

/-- The material table after `DefineObjectMaterials` on a state whose table is
`mats`. -/
theorem DefineObjectMaterials_materials (s : SceneManager K) :
    (DefineObjectMaterials s).m_objectMaterials
      = s.m_objectMaterials
        ++ [deskMaterial, keyboardMaterial, keyCapMaterial, mouseMaterial, pumpkinMaterial] := by
  simp [DefineObjectMaterials]

/-- C3. After one `DefineObjectMaterials` on an empty material table,
`FindMaterial` returns true for each of the five tags and sets the five
coefficients of the reference parameter to the literals written for that tag
(its `tag` member is not assigned). -/
theorem find_material_after_define (s : SceneManager K) (out : OBJECT_MATERIAL K)
    (h : s.m_objectMaterials = []) :
    FindMaterial (DefineObjectMaterials s) "deskMaterial" out
      = (true, { out with
          ambientStrength := 0.3
          ambientColor := ⟨0.5, 0.35, 0.2⟩
          diffuseColor := ⟨0.6, 0.45, 0.3⟩
          specularColor := ⟨0.7, 0.7, 0.7⟩
          shininess := 32.0 }) ∧
    FindMaterial (DefineObjectMaterials s) "keyboardMaterial" out
      = (true, { out with
          ambientStrength := 0.2
          ambientColor := ⟨0.2, 0.2, 0.2⟩
          diffuseColor := ⟨0.3, 0.3, 0.3⟩
          specularColor := ⟨0.5, 0.5, 0.5⟩
          shininess := 16.0 }) ∧
    FindMaterial (DefineObjectMaterials s) "keyCapMaterial" out
      = (true, { out with
          ambientStrength := 0.2
          ambientColor := ⟨0.8, 0.8, 0.8⟩
          diffuseColor := ⟨0.9, 0.9, 0.9⟩
          specularColor := ⟨1.0, 1.0, 1.0⟩
          shininess := 64.0 }) ∧
    FindMaterial (DefineObjectMaterials s) "mouseMaterial" out
      = (true, { out with
          ambientStrength := 0.2
          ambientColor := ⟨0.3, 0.3, 0.3⟩
          diffuseColor := ⟨0.5, 0.5, 0.5⟩
          specularColor := ⟨0.7, 0.7, 0.7⟩
          shininess := 48.0 }) ∧
    FindMaterial (DefineObjectMaterials s) "pumpkinMaterial" out
      = (true, { out with
          ambientStrength := 0.3
          ambientColor := ⟨0.6, 0.3, 0.0⟩
          diffuseColor := ⟨0.8, 0.4, 0.0⟩
          specularColor := ⟨0.5, 0.5, 0.5⟩
          shininess := 8.0 }) := by
  have hm := DefineObjectMaterials_materials s
  rw [h, List.nil_append] at hm
  have hlen : (DefineObjectMaterials s).m_objectMaterials.length = 5 := by rw [hm]; rfl
  have key : ∀ (tag : String) (i : Nat) (hi : i < 5) (e : OBJECT_MATERIAL K),
      ([deskMaterial, keyboardMaterial, keyCapMaterial, mouseMaterial,
          pumpkinMaterial] : List (OBJECT_MATERIAL K)).get ⟨i, hi⟩ = e →
      e.tag = tag →
      (∀ (j : Nat) (hj : j < 5), j < i →
        (([deskMaterial, keyboardMaterial, keyCapMaterial, mouseMaterial,
          pumpkinMaterial] : List (OBJECT_MATERIAL K)).get ⟨j, hj⟩).tag ≠ tag) →
      FindMaterial (DefineObjectMaterials s) tag out = (true, FindMaterial.copy e out) := by
    intro tag i hi e he htag hmiss
    unfold FindMaterial
    rw [if_neg (by rw [hlen]; decide), hm]
    subst he
    rw [FindMaterial_loop_hit
      [deskMaterial, keyboardMaterial, keyCapMaterial, mouseMaterial, pumpkinMaterial]
      tag out i hi htag i 0 rfl (Nat.zero_le _) (fun j hj _ hji => hmiss j hj hji)]
  refine ⟨?_, ?_, ?_, ?_, ?_⟩
  · exact key "deskMaterial" 0 (by decide) deskMaterial rfl rfl
      (fun j hj hji => absurd hji (Nat.not_lt_zero j))
  · refine key "keyboardMaterial" 1 (by decide) keyboardMaterial rfl rfl ?_
    intro j hj hji
    interval_cases j
    simp [List.get, deskMaterial, keyboardMaterial, keyCapMaterial, mouseMaterial]
  · refine key "keyCapMaterial" 2 (by decide) keyCapMaterial rfl rfl ?_
    intro j hj hji
    interval_cases j <;>
      simp [List.get, deskMaterial, keyboardMaterial, keyCapMaterial, mouseMaterial]
  · refine key "mouseMaterial" 3 (by decide) mouseMaterial rfl rfl ?_
    intro j hj hji
    interval_cases j <;>
      simp [List.get, deskMaterial, keyboardMaterial, keyCapMaterial, mouseMaterial]
  · refine key "pumpkinMaterial" 4 (by decide) pumpkinMaterial rfl rfl ?_
    intro j hj hji
    interval_cases j <;>
      simp [List.get, deskMaterial, keyboardMaterial, keyCapMaterial, mouseMaterial]

/-- C3 on a freshly constructed scene composer, over the rationals. -/
theorem find_material_after_define_witness :
    emptyScene.m_objectMaterials = [] ∧
    FindMaterial (DefineObjectMaterials emptyScene) "pumpkinMaterial"
        (exampleMaterial "out" 5)
      = (true, { exampleMaterial "out" 5 with
          ambientStrength := 0.3
          ambientColor := ⟨0.6, 0.3, 0.0⟩
          diffuseColor := ⟨0.8, 0.4, 0.0⟩
          specularColor := ⟨0.5, 0.5, 0.5⟩
          shininess := 8.0 }) :=
  ⟨rfl, (find_material_after_define emptyScene (exampleMaterial "out" 5) rfl).2.2.2.2⟩

/-- C4. When some registered texture entry carries the tag, there is a
smallest index `i` carrying it, `FindTextureSlot` returns `i` and
`FindTextureID` returns the name stored at index `i` (converted to `int`,
which is that name itself when it is below 2^31); entries after `i` play no
part.  Likewise, when some material carries the tag, `FindMaterial` returns
true and copies the five coefficients of the first such material. -/
theorem find_first_match (s : SceneManager K) (tag : String) (out : OBJECT_MATERIAL K) :
    ((∃ i, i < s.m_loadedTextures ∧ (s.m_textureIDs i).tag = tag) →
      ∃ i, i < s.m_loadedTextures ∧ (s.m_textureIDs i).tag = tag ∧
        (∀ j, j < i → (s.m_textureIDs j).tag ≠ tag) ∧
        s.FindTextureSlot tag = (i : Int) ∧
        s.FindTextureID tag = GLuint.toInt (s.m_textureIDs i).ID ∧
        ((s.m_textureIDs i).ID < 2 ^ 31 →
          s.FindTextureID tag = ((s.m_textureIDs i).ID : Int))) ∧
    ((∃ (i : Nat) (h : i < s.m_objectMaterials.length),
        (s.m_objectMaterials.get ⟨i, h⟩).tag = tag) →
      ∃ (i : Nat) (h : i < s.m_objectMaterials.length),
        (s.m_objectMaterials.get ⟨i, h⟩).tag = tag ∧
        (∀ (j : Nat) (hj : j < s.m_objectMaterials.length), j < i →
          (s.m_objectMaterials.get ⟨j, hj⟩).tag ≠ tag) ∧
        FindMaterial s tag out
          = (true, { out with
              ambientColor := (s.m_objectMaterials.get ⟨i, h⟩).ambientColor
              ambientStrength := (s.m_objectMaterials.get ⟨i, h⟩).ambientStrength
              diffuseColor := (s.m_objectMaterials.get ⟨i, h⟩).diffuseColor
              specularColor := (s.m_objectMaterials.get ⟨i, h⟩).specularColor
              shininess := (s.m_objectMaterials.get ⟨i, h⟩).shininess })) := by
  classical
  constructor
  · intro hex
    have hspec := Nat.find_spec hex
    have hmin : ∀ j, j < Nat.find hex → (s.m_textureIDs j).tag ≠ tag := by
      intro j hj hjt
      exact Nat.find_min hex hj ⟨lt_trans hj hspec.1, hjt⟩
    have hid : s.FindTextureID tag = GLuint.toInt (s.m_textureIDs (Nat.find hex)).ID :=
      FindTextureID_loop_hit _ _ _ _ _ hspec.1 hspec.2 _ 0 rfl (Nat.zero_le _)
        (fun j _ hji => hmin j hji)
    refine ⟨Nat.find hex, hspec.1, hspec.2, hmin, ?_, hid, ?_⟩
    · exact FindTextureSlot_loop_hit _ _ _ _ _ hspec.1 hspec.2 _ 0 rfl (Nat.zero_le _)
        (fun j _ hji => hmin j hji)
    · intro hsmall
      rw [hid]
      unfold GLuint.toInt
      have h32 : (s.m_textureIDs (Nat.find hex)).ID % 2 ^ 32 = (s.m_textureIDs (Nat.find hex)).ID :=
        Nat.mod_eq_of_lt (by omega)
      rw [h32, if_pos hsmall]
  · intro hex
    have hspec := Nat.find_spec hex
    obtain ⟨hlt, htag⟩ := hspec
    have hmin : ∀ (j : Nat) (hj : j < s.m_objectMaterials.length), j < Nat.find hex →
        (s.m_objectMaterials.get ⟨j, hj⟩).tag ≠ tag := by
      intro j hj hji hjt
      exact Nat.find_min hex hji ⟨hj, hjt⟩
    refine ⟨Nat.find hex, hlt, htag, hmin, ?_⟩
    unfold FindMaterial
    have hne : ¬ s.m_objectMaterials.length = 0 := by omega
    rw [if_neg hne, FindMaterial_loop_hit _ tag out _ hlt htag _ 0 rfl (Nat.zero_le _)
      (fun j hj _ hji => hmin j hj hji)]
    rfl

/-- C4 on a state where the tag of the first texture and of the first
material recurs at index 2. -/
theorem find_first_match_witness :
    (∃ i, i < exampleScene.m_loadedTextures ∧
      (exampleScene.m_textureIDs i).tag = "desk") ∧
    (∃ (i : Nat) (h : i < exampleScene.m_objectMaterials.length),
      (exampleScene.m_objectMaterials.get ⟨i, h⟩).tag = "desk") ∧
    (∃ i, i < exampleScene.m_loadedTextures ∧
      (exampleScene.m_textureIDs i).tag = "desk" ∧
      (∀ j, j < i → (exampleScene.m_textureIDs j).tag ≠ "desk") ∧
      exampleScene.FindTextureSlot "desk" = (i : Int) ∧
      exampleScene.FindTextureID "desk"
        = GLuint.toInt (exampleScene.m_textureIDs i).ID ∧
      ((exampleScene.m_textureIDs i).ID < 2 ^ 31 →
        exampleScene.FindTextureID "desk" = ((exampleScene.m_textureIDs i).ID : Int))) ∧
    (∃ (i : Nat) (h : i < exampleScene.m_objectMaterials.length),
      (exampleScene.m_objectMaterials.get ⟨i, h⟩).tag = "desk" ∧
      (∀ (j : Nat) (hj : j < exampleScene.m_objectMaterials.length), j < i →
        (exampleScene.m_objectMaterials.get ⟨j, hj⟩).tag ≠ "desk") ∧
      FindMaterial exampleScene "desk" (exampleMaterial "out" 5)
        = (true, { exampleMaterial "out" 5 with
            ambientColor := (exampleScene.m_objectMaterials.get ⟨i, h⟩).ambientColor
            ambientStrength := (exampleScene.m_objectMaterials.get ⟨i, h⟩).ambientStrength
            diffuseColor := (exampleScene.m_objectMaterials.get ⟨i, h⟩).diffuseColor
            specularColor := (exampleScene.m_objectMaterials.get ⟨i, h⟩).specularColor
            shininess := (exampleScene.m_objectMaterials.get ⟨i, h⟩).shininess })) :=
  have h1 : ∃ i, i < exampleScene.m_loadedTextures ∧
      (exampleScene.m_textureIDs i).tag = "desk" := ⟨2, by decide, by decide⟩
  have h2 : ∃ (i : Nat) (h : i < exampleScene.m_objectMaterials.length),
      (exampleScene.m_objectMaterials.get ⟨i, h⟩).tag = "desk" :=
    ⟨2, by decide, by decide⟩
  ⟨h1, h2, (find_first_match exampleScene "desk" (exampleMaterial "out" 5)).1 h1,
    (find_first_match exampleScene "desk" (exampleMaterial "out" 5)).2 h2⟩

end SceneManager

/-! ## Loading a texture -/

namespace SceneManager

variable {K : Type} [LinearOrderedField K]

/-- C5. `CreateGLTexture` returns true exactly when the decoder yields an
image with 3 or 4 channels.  When it returns true, the entry (generated name,
tag) is stored at the index equal to the old `m_loadedTextures`, the count
grows by one and every other entry is unchanged; when it returns false, the
table and the count are unchanged. -/
theorem create_texture (env : Env) (filename tag : String) (s : SceneManager K) :
    ((CreateGLTexture env filename tag s).1 = true ↔
      ∃ image, env.stbi_load filename = some image ∧
        (image.colorChannels = 3 ∨ image.colorChannels = 4)) ∧
    ((CreateGLTexture env filename tag s).1 = true →
      (CreateGLTexture env filename tag s).2.m_loadedTextures = s.m_loadedTextures + 1 ∧
      (CreateGLTexture env filename tag s).2.m_textureIDs s.m_loadedTextures
        = { ID := env.glGenTextures s.gl, tag := tag } ∧
      ∀ i, i ≠ s.m_loadedTextures →
        (CreateGLTexture env filename tag s).2.m_textureIDs i = s.m_textureIDs i) ∧
    ((CreateGLTexture env filename tag s).1 = false →
      (CreateGLTexture env filename tag s).2.m_loadedTextures = s.m_loadedTextures ∧
      (CreateGLTexture env filename tag s).2.m_textureIDs = s.m_textureIDs) := by
  unfold CreateGLTexture
  cases hload : env.stbi_load filename with
  | none => simp [print]
  | some image =>
    by_cases h3 : image.colorChannels = 3
    · simp [h3, print, glDo]
      intro i hi
      exact Function.update_noteq hi _ _
    · by_cases h4 : image.colorChannels = 4
      · simp [h4, print, glDo]
        intro i hi
        exact Function.update_noteq hi _ _
      · simp [h3, h4, print, glDo]

/-- C5 on a file that decodes to an RGB image, loaded into an empty table. -/
theorem create_texture_witness :
    (CreateGLTexture exampleEnv "textures/pumpkin.jpg" "pumpkinTexture" emptyScene).1 = true ∧
    (CreateGLTexture exampleEnv "textures/gray.jpg" "grayTexture" emptyScene).1 = false ∧
    ((CreateGLTexture exampleEnv "textures/pumpkin.jpg" "pumpkinTexture"
        emptyScene).2.m_loadedTextures = emptyScene.m_loadedTextures + 1 ∧
      (CreateGLTexture exampleEnv "textures/pumpkin.jpg" "pumpkinTexture"
        emptyScene).2.m_textureIDs emptyScene.m_loadedTextures
        = { ID := exampleEnv.glGenTextures emptyScene.gl, tag := "pumpkinTexture" } ∧
      ∀ i, i ≠ emptyScene.m_loadedTextures →
        (CreateGLTexture exampleEnv "textures/pumpkin.jpg" "pumpkinTexture"
          emptyScene).2.m_textureIDs i = emptyScene.m_textureIDs i) ∧
    ((CreateGLTexture exampleEnv "textures/gray.jpg" "grayTexture"
        emptyScene).2.m_loadedTextures = emptyScene.m_loadedTextures ∧
      (CreateGLTexture exampleEnv "textures/gray.jpg" "grayTexture"
        emptyScene).2.m_textureIDs = emptyScene.m_textureIDs) :=
  have ht : (CreateGLTexture exampleEnv "textures/pumpkin.jpg" "pumpkinTexture"
      emptyScene).1 = true := by decide
  have hf : (CreateGLTexture exampleEnv "textures/gray.jpg" "grayTexture"
      emptyScene).1 = false := by decide
  ⟨ht, hf,
    (create_texture exampleEnv "textures/pumpkin.jpg" "pumpkinTexture" emptyScene).2.1 ht,
    (create_texture exampleEnv "textures/gray.jpg" "grayTexture" emptyScene).2.2 hf⟩

end SceneManager

/-! ## The model matrix -/

namespace SceneManager

variable {K : Type} [LinearOrderedField K]

/-- A rotation by zero degrees is the identity, about any axis. -/
theorem rotate_zero (m : glm.Math K) (hc : m.cos 0 = 1) (hs : m.sin 0 = 0) (v : glm.vec3 K) :
    glm.rotate m (glm.radians 0) v = 1 := by
  ext i j
  fin_cases i <;> fin_cases j <;>
    simp [glm.rotate, glm.radians, hc, hs, Matrix.one_apply, Matrix.vecHead, Matrix.vecTail]

/-- With the three angles zero the model matrix is the scaling followed by the
translation. -/
theorem modelView_zero_rotation (m : glm.Math K) (hc : m.cos 0 = 1) (hs : m.sin 0 = 0)
    (s t : glm.vec3 K) :
    modelView m s 0 0 0 t
      = !![s.x, 0, 0, t.x;
           0, s.y, 0, t.y;
           0, 0, s.z, t.z;
           0, 0, 0, 1] := by
  unfold modelView
  simp only [rotate_zero m hc hs, mul_one]
  ext i j
  fin_cases i <;> fin_cases j <;>
    simp [glm.translate, glm.scale, Matrix.mul_apply, Fin.sum_univ_four, Matrix.vecHead,
      Matrix.vecTail]

/-- The image of a point under the matrix of a scaling followed by a
translation. -/
theorem scale_translate_mulVec (s t : glm.vec3 K) (x y z : K) :
    Matrix.mulVec
        !![s.x, 0, 0, t.x;
           0, s.y, 0, t.y;
           0, 0, s.z, t.z;
           0, 0, 0, 1] ![x, y, z, 1]
      = ![s.x * x + t.x, s.y * y + t.y, s.z * z + t.z, 1] := by
  ext i
  fin_cases i <;> simp [Matrix.mulVec, Matrix.dotProduct, Fin.sum_univ_four]

/-- C6. Over the reals, with scale (1,1,1), the three angles 0 and position
(0,0,0), the matrix `SetTransformations` computes is the identity, and with a
shader present it is passed to `setMat4Value` under the name "model". -/
theorem identity_transform (s : SceneManager ℝ) (log : List (ShaderCall ℝ)) :
    modelView ⟨Real.cos, Real.sin, Real.tan, Real.sqrt⟩ ⟨1, 1, 1⟩ 0 0 0 ⟨0, 0, 0⟩ = 1 ∧
    (SetTransformations ⟨Real.cos, Real.sin, Real.tan, Real.sqrt⟩ ⟨1, 1, 1⟩ 0 0 0 ⟨0, 0, 0⟩
        { s with m_pShaderManager := some log }).m_pShaderManager
      = some (log ++ [ShaderCall.setMat4Value "model" 1]) := by
  have h : modelView ⟨Real.cos, Real.sin, Real.tan, Real.sqrt⟩ ⟨1, 1, 1⟩ 0 0 0 ⟨0, 0, 0⟩
      = (1 : glm.mat4 ℝ) := by
    rw [modelView_zero_rotation _ Real.cos_zero Real.sin_zero]
    ext i j
    fin_cases i <;> fin_cases j <;> simp [Matrix.one_apply, Matrix.vecHead, Matrix.vecTail]
  refine ⟨h, ?_⟩
  simp [SetTransformations, shader, h, g_ModelName]

/-- C7. Over the reals, with the three angles 0, the matrix that
`SetTransformations` passes under "model" (the product translation * rotationX
* rotationY * rotationZ * scale) sends the local point (x, y, z, 1) to
(s.x*x + t.x, s.y*y + t.y, s.z*z + t.z, 1).  With scale (2,2,2) and position
(5,0,0) the local origin goes to x = 5 and the local points x = -1 and x = 1
go to x = 3 and x = 7; the origin does not go to x = 10. -/
theorem scale_then_translate (σ : SceneManager ℝ) (log : List (ShaderCall ℝ))
    (s t : glm.vec3 ℝ) (x y z : ℝ) :
    (SetTransformations ⟨Real.cos, Real.sin, Real.tan, Real.sqrt⟩ s 0 0 0 t
        { σ with m_pShaderManager := some log }).m_pShaderManager
      = some (log ++ [ShaderCall.setMat4Value "model"
          (modelView ⟨Real.cos, Real.sin, Real.tan, Real.sqrt⟩ s 0 0 0 t)]) ∧
    modelView ⟨Real.cos, Real.sin, Real.tan, Real.sqrt⟩ s 0 0 0 t
      = glm.translate t
        * glm.rotate ⟨Real.cos, Real.sin, Real.tan, Real.sqrt⟩ (glm.radians 0) ⟨1, 0, 0⟩
        * glm.rotate ⟨Real.cos, Real.sin, Real.tan, Real.sqrt⟩ (glm.radians 0) ⟨0, 1, 0⟩
        * glm.rotate ⟨Real.cos, Real.sin, Real.tan, Real.sqrt⟩ (glm.radians 0) ⟨0, 0, 1⟩
        * glm.scale s ∧
    Matrix.mulVec (modelView ⟨Real.cos, Real.sin, Real.tan, Real.sqrt⟩ s 0 0 0 t) ![x, y, z, 1]
      = ![s.x * x + t.x, s.y * y + t.y, s.z * z + t.z, 1] ∧
    Matrix.mulVec (modelView ⟨Real.cos, Real.sin, Real.tan, Real.sqrt⟩ ⟨2, 2, 2⟩ 0 0 0 ⟨5, 0, 0⟩)
        ![0, 0, 0, 1] = ![5, 0, 0, 1] ∧
    Matrix.mulVec (modelView ⟨Real.cos, Real.sin, Real.tan, Real.sqrt⟩ ⟨2, 2, 2⟩ 0 0 0 ⟨5, 0, 0⟩)
        ![-1, 0, 0, 1] = ![3, 0, 0, 1] ∧
    Matrix.mulVec (modelView ⟨Real.cos, Real.sin, Real.tan, Real.sqrt⟩ ⟨2, 2, 2⟩ 0 0 0 ⟨5, 0, 0⟩)
        ![1, 0, 0, 1] = ![7, 0, 0, 1] ∧
    Matrix.mulVec (modelView ⟨Real.cos, Real.sin, Real.tan, Real.sqrt⟩ ⟨2, 2, 2⟩ 0 0 0 ⟨5, 0, 0⟩)
        ![0, 0, 0, 1] 0 ≠ 10 := by
  have hgen : ∀ (s t : glm.vec3 ℝ) (x y z : ℝ),
      Matrix.mulVec (modelView ⟨Real.cos, Real.sin, Real.tan, Real.sqrt⟩ s 0 0 0 t) ![x, y, z, 1]
        = ![s.x * x + t.x, s.y * y + t.y, s.z * z + t.z, 1] := by
    intro s t x y z
    rw [modelView_zero_rotation _ Real.cos_zero Real.sin_zero, scale_translate_mulVec]
  refine ⟨?_, rfl, hgen s t x y z, ?_, ?_, ?_, ?_⟩
  · simp [SetTransformations, shader, g_ModelName]
  · rw [hgen]; norm_num
  · rw [hgen]; norm_num
  · rw [hgen]; norm_num
  · rw [hgen]; norm_num

end SceneManager

/-! ## Scroll wheel and projection keys -/

namespace ViewManager

variable {K H : Type} [LinearOrderedField K]

/-- C8. After `MouseScrollCallback` the multiplier is the old multiplier plus
0.1 times `yOffset`, clamped to [0.1, 3.0], and the camera movement speed is
10.0 times the new multiplier, whatever the speed was before; hence the
multiplier lies in [0.1, 3.0] and the speed in [1.0, 30.0]. -/
theorem scroll_clamps (xOffset yOffset : K) (v : ViewManager K H) :
    (MouseScrollCallback xOffset yOffset v).g_MovementSpeedMultiplier
      = max 0.1 (min (v.g_MovementSpeedMultiplier + 0.1 * yOffset) 3.0) ∧
    (MouseScrollCallback xOffset yOffset v).g_pCamera.MovementSpeed
      = 10.0 * (MouseScrollCallback xOffset yOffset v).g_MovementSpeedMultiplier ∧
    0.1 ≤ (MouseScrollCallback xOffset yOffset v).g_MovementSpeedMultiplier ∧
    (MouseScrollCallback xOffset yOffset v).g_MovementSpeedMultiplier ≤ 3.0 ∧
    1.0 ≤ (MouseScrollCallback xOffset yOffset v).g_pCamera.MovementSpeed ∧
    (MouseScrollCallback xOffset yOffset v).g_pCamera.MovementSpeed ≤ 30.0 := by
  have hm : (MouseScrollCallback xOffset yOffset v).g_MovementSpeedMultiplier
      = max 0.1 (min (v.g_MovementSpeedMultiplier + 0.1 * yOffset) 3.0) := by
    have hcomm : v.g_MovementSpeedMultiplier + yOffset * 0.1
        = v.g_MovementSpeedMultiplier + 0.1 * yOffset := by ring
    simp only [MouseScrollCallback, hcomm]
    by_cases h1 : v.g_MovementSpeedMultiplier + 0.1 * yOffset < 0.1
    · have h2 : ¬ ((0.1 : K) > 3.0) := by norm_num
      have h3 : min (v.g_MovementSpeedMultiplier + 0.1 * yOffset) 3.0
          = v.g_MovementSpeedMultiplier + 0.1 * yOffset :=
        min_eq_left (le_of_lt (lt_trans h1 (by norm_num)))
      simp only [h1, if_true, h2, if_false, h3]
      exact (max_eq_left (le_of_lt h1)).symm
    · by_cases h2 : v.g_MovementSpeedMultiplier + 0.1 * yOffset > 3.0
      · have h3 : min (v.g_MovementSpeedMultiplier + 0.1 * yOffset) 3.0 = 3.0 :=
          min_eq_right (le_of_lt h2)
        simp only [h1, if_false, h2, if_true, h3]
        exact (max_eq_right (by norm_num)).symm
      · have h3 : min (v.g_MovementSpeedMultiplier + 0.1 * yOffset) 3.0
            = v.g_MovementSpeedMultiplier + 0.1 * yOffset :=
          min_eq_left (not_lt.mp h2)
        simp only [h1, if_false, h2, h3]
        exact (max_eq_right (not_lt.mp h1)).symm
  have hs : (MouseScrollCallback xOffset yOffset v).g_pCamera.MovementSpeed
      = 10.0 * (MouseScrollCallback xOffset yOffset v).g_MovementSpeedMultiplier := by
    simp only [MouseScrollCallback]
  have hlo : (0.1 : K) ≤ (MouseScrollCallback xOffset yOffset v).g_MovementSpeedMultiplier := by
    rw [hm]; exact le_max_left _ _
  have hhi : (MouseScrollCallback xOffset yOffset v).g_MovementSpeedMultiplier ≤ (3.0 : K) := by
    rw [hm]; exact max_le (by norm_num) (min_le_right _ _)
  refine ⟨hm, hs, hlo, hhi, ?_, ?_⟩
  · rw [hs]; norm_num at hlo ⊢; linarith
  · rw [hs]; norm_num at hhi ⊢; linarith

/-- A movement key leaves the projection mode, the latches and the console
output as they are. -/
theorem move_projection (cam : CameraClass K H) (glfwGetKey : Key → KeyState) (key : Key)
    (direction : Camera_Movement) (v : ViewManager K H) :
    (ProcessKeyboardEvents.move cam glfwGetKey key direction v).bOrthographicProjection
        = v.bOrthographicProjection ∧
    (ProcessKeyboardEvents.move cam glfwGetKey key direction v).pKeyPressed = v.pKeyPressed ∧
    (ProcessKeyboardEvents.move cam glfwGetKey key direction v).oKeyPressed = v.oKeyPressed ∧
    (ProcessKeyboardEvents.move cam glfwGetKey key direction v).cout = v.cout := by
  unfold ProcessKeyboardEvents.move
  split <;> simp

/-- The Escape key leaves the projection mode, the latches and the console
output as they are. -/
theorem escape_projection (glfwGetKey : Key → KeyState) (v : ViewManager K H) :
    (ProcessKeyboardEvents.escape glfwGetKey v).bOrthographicProjection
        = v.bOrthographicProjection ∧
    (ProcessKeyboardEvents.escape glfwGetKey v).pKeyPressed = v.pKeyPressed ∧
    (ProcessKeyboardEvents.escape glfwGetKey v).oKeyPressed = v.oKeyPressed ∧
    (ProcessKeyboardEvents.escape glfwGetKey v).cout = v.cout := by
  unfold ProcessKeyboardEvents.escape
  split <;> simp

/-- After one call of `ProcessKeyboardEvents`, the projection mode, the
latches and the console output are those after the P and O statements. -/
theorem ProcessKeyboardEvents_projection (cam : CameraClass K H) (glfwGetKey : Key → KeyState)
    (v : ViewManager K H) :
    (ProcessKeyboardEvents cam glfwGetKey v).bOrthographicProjection
      = (ProcessKeyboardEvents.keyO glfwGetKey (ProcessKeyboardEvents.keyP glfwGetKey
          (ProcessKeyboardEvents.escape glfwGetKey v))).bOrthographicProjection ∧
    (ProcessKeyboardEvents cam glfwGetKey v).pKeyPressed
      = (ProcessKeyboardEvents.keyO glfwGetKey (ProcessKeyboardEvents.keyP glfwGetKey
          (ProcessKeyboardEvents.escape glfwGetKey v))).pKeyPressed ∧
    (ProcessKeyboardEvents cam glfwGetKey v).oKeyPressed
      = (ProcessKeyboardEvents.keyO glfwGetKey (ProcessKeyboardEvents.keyP glfwGetKey
          (ProcessKeyboardEvents.escape glfwGetKey v))).oKeyPressed ∧
    (ProcessKeyboardEvents cam glfwGetKey v).cout
      = (ProcessKeyboardEvents.keyO glfwGetKey (ProcessKeyboardEvents.keyP glfwGetKey
          (ProcessKeyboardEvents.escape glfwGetKey v))).cout := by
  unfold ProcessKeyboardEvents
  simp only [move_projection, and_self]

/-- One call with O down and P up, from a state whose O latch is clear:
the mode becomes orthographic, the latch is set and one line is printed. -/
theorem ProcessKeyboardEvents_fresh_O (cam : CameraClass K H) (glfwGetKey : Key → KeyState)
    (v : ViewManager K H) (hlatch : v.oKeyPressed = false)
    (hO : glfwGetKey Key.GLFW_KEY_O = KeyState.GLFW_PRESS)
    (hP : glfwGetKey Key.GLFW_KEY_P = KeyState.GLFW_RELEASE) :
    (ProcessKeyboardEvents cam glfwGetKey v).bOrthographicProjection = true ∧
    (ProcessKeyboardEvents cam glfwGetKey v).oKeyPressed = true ∧
    (ProcessKeyboardEvents cam glfwGetKey v).cout
      = v.cout ++ [.str "Switched to Orthographic Projection", .endl] := by
  obtain ⟨h1, -, h3, h4⟩ := ProcessKeyboardEvents_projection cam glfwGetKey v
  obtain ⟨-, -, e3, e4⟩ := escape_projection glfwGetKey v
  rw [h1, h3, h4]
  simp [ProcessKeyboardEvents.keyO, ProcessKeyboardEvents.keyP, hO, hP, e3, e4, hlatch]

/-- One call with O down and P up, from a state whose O latch is set: the
mode, the latch and the console output stay as they are. -/
theorem ProcessKeyboardEvents_held_O (cam : CameraClass K H) (glfwGetKey : Key → KeyState)
    (v : ViewManager K H) (hlatch : v.oKeyPressed = true)
    (hO : glfwGetKey Key.GLFW_KEY_O = KeyState.GLFW_PRESS)
    (hP : glfwGetKey Key.GLFW_KEY_P = KeyState.GLFW_RELEASE) :
    (ProcessKeyboardEvents cam glfwGetKey v).bOrthographicProjection
      = v.bOrthographicProjection ∧
    (ProcessKeyboardEvents cam glfwGetKey v).oKeyPressed = true ∧
    (ProcessKeyboardEvents cam glfwGetKey v).cout = v.cout := by
  obtain ⟨h1, -, h3, h4⟩ := ProcessKeyboardEvents_projection cam glfwGetKey v
  obtain ⟨e1, -, e3, e4⟩ := escape_projection glfwGetKey v
  rw [h1, h3, h4]
  simp [ProcessKeyboardEvents.keyO, ProcessKeyboardEvents.keyP, hO, hP, e1, e3, e4, hlatch]

/-- C9. From perspective mode with the O latch clear, in `n = 1 + rest.length`
consecutive calls of `ProcessKeyboardEvents` in each of which O polls as
pressed and P as released, the first call sets the mode to orthographic and
prints its one line; before each later call the O latch is set, so the guard
of the assignment fails, and after it the mode is still orthographic and the
console output is still the old output followed by that one line: none of
the later calls has run a mode assignment (each of which prints a line). -/
theorem hold_O_switches_once (cam : CameraClass K H) (v : ViewManager K H)
    (first : Key → KeyState) (rest : List (Key → KeyState))
    (hmode : v.bOrthographicProjection = false) (hlatch : v.oKeyPressed = false)
    (hO : ∀ k ∈ first :: rest, k Key.GLFW_KEY_O = KeyState.GLFW_PRESS)
    (hP : ∀ k ∈ first :: rest, k Key.GLFW_KEY_P = KeyState.GLFW_RELEASE) :
    (ProcessKeyboardEvents cam first v).bOrthographicProjection = true ∧
    (ProcessKeyboardEvents cam first v).cout
      = v.cout ++ [.str "Switched to Orthographic Projection", .endl] ∧
    ∀ m, m ≤ rest.length →
      (frames cam (rest.take m) (ProcessKeyboardEvents cam first v)).bOrthographicProjection
        = true ∧
      (frames cam (rest.take m) (ProcessKeyboardEvents cam first v)).oKeyPressed = true ∧
      (frames cam (rest.take m) (ProcessKeyboardEvents cam first v)).cout
        = v.cout ++ [.str "Switched to Orthographic Projection", .endl] := by
  obtain ⟨f1, f2, f3⟩ := ProcessKeyboardEvents_fresh_O cam first v hlatch
    (hO first (List.mem_cons_self _ _)) (hP first (List.mem_cons_self _ _))
  refine ⟨f1, f3, ?_⟩
  have hrest : ∀ (l : List (Key → KeyState)) (w : ViewManager K H),
      (∀ k ∈ l, k Key.GLFW_KEY_O = KeyState.GLFW_PRESS) →
      (∀ k ∈ l, k Key.GLFW_KEY_P = KeyState.GLFW_RELEASE) →
      w.oKeyPressed = true →
      (frames cam l w).bOrthographicProjection = w.bOrthographicProjection ∧
      (frames cam l w).oKeyPressed = true ∧
      (frames cam l w).cout = w.cout := by
    intro l
    induction l with
    | nil => intro w _ _ hw; exact ⟨rfl, hw, rfl⟩
    | cons k l ih =>
      intro w hlO hlP hw
      obtain ⟨g1, g2, g3⟩ := ProcessKeyboardEvents_held_O cam k w hw
        (hlO k (List.mem_cons_self _ _)) (hlP k (List.mem_cons_self _ _))
      obtain ⟨i1, i2, i3⟩ := ih (ProcessKeyboardEvents cam k w)
        (fun x hx => hlO x (List.mem_cons_of_mem _ hx))
        (fun x hx => hlP x (List.mem_cons_of_mem _ hx)) g2
      refine ⟨?_, ?_, ?_⟩
      · show (frames cam l (ProcessKeyboardEvents cam k w)).bOrthographicProjection = _
        rw [i1, g1]
      · exact i2
      · show (frames cam l (ProcessKeyboardEvents cam k w)).cout = _
        rw [i3, g3]
  intro m _
  obtain ⟨r1, r2, r3⟩ := hrest (rest.take m) (ProcessKeyboardEvents cam first v)
    (fun k hk => hO k (List.mem_cons_of_mem _ (List.mem_of_mem_take hk)))
    (fun k hk => hP k (List.mem_cons_of_mem _ (List.mem_of_mem_take hk))) f2
  exact ⟨r1.trans f1, r2, r3.trans f3⟩

/-- C9 on the freshly constructed view controller with O held for three
frames. -/
theorem hold_O_switches_once_witness :
    exampleView.bOrthographicProjection = false ∧ exampleView.oKeyPressed = false ∧
    (∀ k ∈ [holdO, holdO, holdO], k Key.GLFW_KEY_O = KeyState.GLFW_PRESS) ∧
    (∀ k ∈ [holdO, holdO, holdO], k Key.GLFW_KEY_P = KeyState.GLFW_RELEASE) ∧
    (ProcessKeyboardEvents exampleCameraClass holdO exampleView).bOrthographicProjection = true ∧
    (ProcessKeyboardEvents exampleCameraClass holdO exampleView).cout
      = exampleView.cout ++ [.str "Switched to Orthographic Projection", .endl] ∧
    ∀ m, m ≤ [holdO, holdO].length →
      (frames exampleCameraClass ([holdO, holdO].take m)
        (ProcessKeyboardEvents exampleCameraClass holdO exampleView)).bOrthographicProjection
        = true ∧
      (frames exampleCameraClass ([holdO, holdO].take m)
        (ProcessKeyboardEvents exampleCameraClass holdO exampleView)).oKeyPressed = true ∧
      (frames exampleCameraClass ([holdO, holdO].take m)
        (ProcessKeyboardEvents exampleCameraClass holdO exampleView)).cout
        = exampleView.cout ++ [.str "Switched to Orthographic Projection", .endl] :=
  have hO : ∀ k ∈ [holdO, holdO, holdO], k Key.GLFW_KEY_O = KeyState.GLFW_PRESS := by
    intro k hk
    simp only [List.mem_cons, List.mem_singleton, List.not_mem_nil, or_false, or_self] at hk
    subst hk
    decide
  have hP : ∀ k ∈ [holdO, holdO, holdO], k Key.GLFW_KEY_P = KeyState.GLFW_RELEASE := by
    intro k hk
    simp only [List.mem_cons, List.mem_singleton, List.not_mem_nil, or_false, or_self] at hk
    subst hk
    decide
  ⟨rfl, rfl, hO, hP,
    hold_O_switches_once exampleCameraClass exampleView holdO [holdO, holdO] rfl rfl hO hP⟩

end ViewManager

/-! ## Draw calls of the scene -/

namespace SceneManager

variable {K : Type} [LinearOrderedField K]

@[simp]
theorem shader_m_basicMeshes (calls : List (ShaderCall K)) (s : SceneManager K) :
    (shader calls s).m_basicMeshes = s.m_basicMeshes := rfl

@[simp]
theorem shader_m_objectMaterials (calls : List (ShaderCall K)) (s : SceneManager K) :
    (shader calls s).m_objectMaterials = s.m_objectMaterials := rfl

@[simp]
theorem shader_materialSafe (calls : List (ShaderCall K)) (s : SceneManager K) :
    materialSafe (shader calls s) ↔ materialSafe s := by
  cases hs : s.m_pShaderManager <;> simp [materialSafe, shader, hs]

@[simp]
theorem mesh_m_basicMeshes (c : MeshCall) (s : SceneManager K) :
    (mesh c s).m_basicMeshes = s.m_basicMeshes ++ [c] := rfl

@[simp]
theorem mesh_materialSafe (c : MeshCall) (s : SceneManager K) :
    materialSafe (mesh c s) ↔ materialSafe s := Iff.rfl

/-- On a safe state `SetShaderMaterial` runs to its end and its effect is the
uniform calls `materialCalls`. -/
theorem SetShaderMaterial_eq (material₀ : OBJECT_MATERIAL K) (materialTag : String)
    (s : SceneManager K) (h : materialSafe s) :
    SetShaderMaterial material₀ materialTag s
      = some (shader (materialCalls material₀ materialTag s) s) := by
  unfold SetShaderMaterial materialCalls
  by_cases hlen : s.m_objectMaterials.length > 0
  · have hne : s.m_objectMaterials ≠ [] := by
      intro h0; rw [h0] at hlen; exact Nat.lt_irrefl 0 hlen
    have hflag : (FindMaterial s materialTag material₀).1 = true := by
      unfold FindMaterial
      rw [if_neg (by omega)]
    rcases h with h | h
    · cases hs : s.m_pShaderManager with
      | none => exact absurd hs h
      | some log => simp [hlen, hflag, shaderDeref, shader, hs]
    · exact absurd h hne
  · have h0 : s.m_objectMaterials.length = 0 := by omega
    obtain ⟨sh, _, _, _, _, _, _⟩ := s
    cases sh <;> simp_all [shader]

/-- The inner loop over the columns of one row. -/
theorem RenderScene_keys_row (m : glm.Math K) (rx ry rz kw kh kd sx sz x0 z0 y0 : K)
    (row : Nat) :
    ∀ (cols : List Nat) (s : SceneManager K),
      (cols.foldl (fun s col => RenderScene.key m rx ry rz kw kh kd sx sz x0 z0 y0 row col s)
          s).m_basicMeshes
        = s.m_basicMeshes ++ cols.flatMap (fun col =>
            if row = 3 ∧ col > 2 ∧ col < 9 then [] else [MeshCall.DrawBoxMesh]) ∧
      (materialSafe (cols.foldl
          (fun s col => RenderScene.key m rx ry rz kw kh kd sx sz x0 z0 y0 row col s) s)
        ↔ materialSafe s) := by
  intro cols
  induction cols with
  | nil => intro s; simp
  | cons col cols ih =>
    intro s
    obtain ⟨h1, h2⟩ := ih (RenderScene.key m rx ry rz kw kh kd sx sz x0 z0 y0 row col s)
    rw [List.foldl_cons, h1, h2]
    unfold RenderScene.key
    by_cases hskip : row = 3 ∧ col > 2 ∧ col < 9
    · simp [hskip]
    · simp [hskip, SetTransformations]

/-- The nested loops over rows and columns. -/
theorem RenderScene_keys_rows (m : glm.Math K) (rx ry rz kw kh kd sx sz x0 z0 y0 : K)
    (cols : List Nat) :
    ∀ (rows : List Nat) (s : SceneManager K),
      (rows.foldl (fun s row => cols.foldl
          (fun s col => RenderScene.key m rx ry rz kw kh kd sx sz x0 z0 y0 row col s) s)
          s).m_basicMeshes
        = s.m_basicMeshes ++ rows.flatMap (fun row => cols.flatMap (fun col =>
            if row = 3 ∧ col > 2 ∧ col < 9 then [] else [MeshCall.DrawBoxMesh])) ∧
      (materialSafe (rows.foldl (fun s row => cols.foldl
          (fun s col => RenderScene.key m rx ry rz kw kh kd sx sz x0 z0 y0 row col s) s) s)
        ↔ materialSafe s) := by
  intro rows
  induction rows with
  | nil => intro s; simp
  | cons row rows ih =>
    intro s
    obtain ⟨h1, h2⟩ := ih (cols.foldl
      (fun s col => RenderScene.key m rx ry rz kw kh kd sx sz x0 z0 y0 row col s) s)
    obtain ⟨g1, g2⟩ := RenderScene_keys_row m rx ry rz kw kh kd sx sz x0 z0 y0 row cols s
    rw [List.foldl_cons, h1, h2, g1, g2]
    simp

/-- The key grid of the scene: 42 boxes. -/
theorem RenderScene_keys_grid (m : glm.Math K) (rx ry rz kw kh kd sx sz x0 z0 y0 : K)
    (s : SceneManager K) :
    (RenderScene.keys m rx ry rz kw kh kd sx sz x0 z0 y0 4 12 s).m_basicMeshes
      = s.m_basicMeshes ++ List.replicate 42 MeshCall.DrawBoxMesh ∧
    (materialSafe (RenderScene.keys m rx ry rz kw kh kd sx sz x0 z0 y0 4 12 s)
      ↔ materialSafe s) := by
  obtain ⟨h1, h2⟩ := RenderScene_keys_rows m rx ry rz kw kh kd sx sz x0 z0 y0 (List.range 12)
    (List.range 4) s
  refine ⟨?_, h2⟩
  unfold RenderScene.keys
  rw [h1]
  congr 1

/-- On a safe state `RenderScene` runs to its end and issues the mesh calls
`sceneDraws`. -/
theorem RenderScene_meshes (m : glm.Math K) (material₀ : OBJECT_MATERIAL K)
    (s : SceneManager K) (h : materialSafe s) :
    ∃ s', RenderScene m material₀ s = some s' ∧
      s'.m_basicMeshes = s.m_basicMeshes ++ sceneDraws := by
  simp [RenderScene, SetShaderMaterial_eq, SetTransformations, SetShaderTexture,
    SetTextureUVScale, SetShaderColor, RenderScene_keys_grid, h, sceneDraws]

/-- With a null shader pointer and a non-empty material table `RenderScene`
does not run to its end: its first `SetShaderMaterial` dereferences the
pointer. -/
theorem RenderScene_null_shader (m : glm.Math K) (material₀ : OBJECT_MATERIAL K)
    (s : SceneManager K) (hnull : s.m_pShaderManager = none)
    (hmat : s.m_objectMaterials ≠ []) :
    RenderScene m material₀ s = none := by
  have hlen : s.m_objectMaterials.length > 0 := List.length_pos.mpr hmat
  have hlen0 : ¬ s.m_objectMaterials.length = 0 := by omega
  have h1 : SetShaderMaterial material₀ "deskMaterial"
      (SetTransformations m ⟨20.0, 0.5, 10.0⟩ 0.0 0.0 0.0 ⟨0.0, -0.25, 0.0⟩ s) = none := by
    simp [SetShaderMaterial, SetTransformations, shader, shaderDeref, FindMaterial, hnull, hlen,
      hlen0]
  unfold RenderScene
  simp only [h1]
  rfl

/-- `CreateGLTexture` makes no mesh call and leaves the shader pointer and the
material table as they are. -/
theorem CreateGLTexture_frame (env : Env) (filename tag : String) (s : SceneManager K) :
    (CreateGLTexture env filename tag s).2.m_basicMeshes = s.m_basicMeshes ∧
    (CreateGLTexture env filename tag s).2.m_pShaderManager = s.m_pShaderManager ∧
    (CreateGLTexture env filename tag s).2.m_objectMaterials = s.m_objectMaterials := by
  unfold CreateGLTexture
  cases env.stbi_load filename with
  | none => simp [print]
  | some image =>
    by_cases h3 : image.colorChannels = 3
    · simp [h3, print, glDo]
    · by_cases h4 : image.colorChannels = 4
      · simp [h4, print, glDo]
      · simp [h3, h4, print, glDo]

/-- `BindGLTextures` makes no mesh call and leaves the shader pointer and the
material table as they are. -/
theorem BindGLTextures_frame (s : SceneManager K) :
    (BindGLTextures s).m_basicMeshes = s.m_basicMeshes ∧
    (BindGLTextures s).m_pShaderManager = s.m_pShaderManager ∧
    (BindGLTextures s).m_objectMaterials = s.m_objectMaterials := by
  unfold BindGLTextures
  generalize List.range s.m_loadedTextures = l
  induction l generalizing s with
  | nil => exact ⟨rfl, rfl, rfl⟩
  | cons i l ih =>
    rw [List.foldl_cons]
    obtain ⟨h1, h2, h3⟩ := ih (glDo [.glActiveTexture i,
      .glBindTexture GLenum.GL_TEXTURE_2D (s.m_textureIDs i).ID] s)
    exact ⟨h1, h2, h3⟩

/-- `LoadSceneTextures` makes no mesh call and leaves the shader pointer and
the material table as they are. -/
theorem LoadSceneTextures_frame (env : Env) (s : SceneManager K) :
    (LoadSceneTextures env s).m_basicMeshes = s.m_basicMeshes ∧
    (LoadSceneTextures env s).m_pShaderManager = s.m_pShaderManager ∧
    (LoadSceneTextures env s).m_objectMaterials = s.m_objectMaterials := by
  have hstep : ∀ (filename tag message : String) (s : SceneManager K),
      (if (CreateGLTexture env filename tag s).1 = false then
          print [.str message, .endl] (CreateGLTexture env filename tag s).2
        else (CreateGLTexture env filename tag s).2).m_basicMeshes = s.m_basicMeshes ∧
      (if (CreateGLTexture env filename tag s).1 = false then
          print [.str message, .endl] (CreateGLTexture env filename tag s).2
        else (CreateGLTexture env filename tag s).2).m_pShaderManager = s.m_pShaderManager ∧
      (if (CreateGLTexture env filename tag s).1 = false then
          print [.str message, .endl] (CreateGLTexture env filename tag s).2
        else (CreateGLTexture env filename tag s).2).m_objectMaterials
        = s.m_objectMaterials := by
    intro filename tag message s
    obtain ⟨h1, h2, h3⟩ := CreateGLTexture_frame env filename tag s
    split <;> simp [print, h1, h2, h3]
  unfold LoadSceneTextures
  simp only [BindGLTextures_frame, hstep, and_self]

/-- With a shader present `PrepareScene` runs to its end; its mesh calls are
the five loads, the shader pointer stays non-null. -/
theorem PrepareScene_meshes (env : Env) (s : SceneManager K)
    (h : s.m_pShaderManager ≠ none) :
    ∃ s', PrepareScene env s = some s' ∧
      s'.m_basicMeshes = s.m_basicMeshes ++ [.LoadPlaneMesh, .LoadBoxMesh, .LoadSphereMesh,
        .LoadCylinderMesh, .LoadConeMesh] ∧
      s'.m_pShaderManager ≠ none := by
  cases hs : s.m_pShaderManager with
  | none => exact absurd hs h
  | some log =>
    simp [PrepareScene, SetupSceneLights, shaderDeref, DefineObjectMaterials, hs, mesh,
      LoadSceneTextures_frame]

/-- C10. With a shader present, one `RenderScene` runs to its end and issues
exactly 50 mesh draw calls, in this order: 1 plane (desk), 1 box (keyboard
base), 1 box (trim), 42 boxes (keys) and 1 box (spacebar), box and sphere
(mouse), cylinder and sphere (decoration).  A grid position (row, col) gets a
key unless row = 3 and 3 <= col <= 8, which excludes 6 of the 12 x 4
positions.  `PrepareScene` runs to its end and issues no draw call: its mesh
calls are the five loads. -/
theorem scene_draw_calls (m : glm.Math K) (material₀ : OBJECT_MATERIAL K) (env : Env)
    (s : SceneManager K) (h : s.m_pShaderManager ≠ none) :
    (∃ s', RenderScene m material₀ s = some s' ∧
      s'.m_basicMeshes = s.m_basicMeshes ++
        ([.DrawPlaneMesh] ++ [.DrawBoxMesh] ++ [.DrawBoxMesh]
          ++ (List.replicate 42 .DrawBoxMesh ++ [.DrawBoxMesh])
          ++ [.DrawBoxMesh, .DrawSphereMesh] ++ [.DrawCylinderMesh, .DrawSphereMesh]) ∧
      (s'.m_basicMeshes.filter MeshCall.isDraw).length
        = (s.m_basicMeshes.filter MeshCall.isDraw).length + 50) ∧
    (∀ (rx ry rz kw kh kd sx sz x0 z0 y0 : K) (row col : Nat) (σ : SceneManager K),
      (RenderScene.key m rx ry rz kw kh kd sx sz x0 z0 y0 row col σ).m_basicMeshes
        = σ.m_basicMeshes ++ (if row = 3 ∧ 3 ≤ col ∧ col ≤ 8 then [] else [.DrawBoxMesh])) ∧
    ((List.range 4).flatMap (fun row => (List.range 12).filter
        (fun col => decide (row = 3 ∧ 3 ≤ col ∧ col ≤ 8)))).length = 6 ∧
    ((List.range 4).flatMap (fun row => (List.range 12).filter
        (fun col => !decide (row = 3 ∧ 3 ≤ col ∧ col ≤ 8)))).length = 42 ∧
    (∃ s', PrepareScene env s = some s' ∧
      s'.m_basicMeshes = s.m_basicMeshes ++ [.LoadPlaneMesh, .LoadBoxMesh, .LoadSphereMesh,
        .LoadCylinderMesh, .LoadConeMesh] ∧
      s'.m_basicMeshes.filter MeshCall.isDraw = s.m_basicMeshes.filter MeshCall.isDraw) := by
  refine ⟨?_, ?_, by decide, by decide, ?_⟩
  · obtain ⟨s', h1, h2⟩ := RenderScene_meshes m material₀ s (Or.inl h)
    refine ⟨s', h1, ?_, ?_⟩
    · rw [h2]; rfl
    · rw [h2, List.filter_append, List.length_append]
      rfl
  · intro rx ry rz kw kh kd sx sz x0 z0 y0 row col σ
    unfold RenderScene.key
    by_cases hskip : row = 3 ∧ col > 2 ∧ col < 9
    · have hskip2 : row = 3 ∧ 3 ≤ col ∧ col ≤ 8 := by omega
      simp [hskip, hskip2]
    · have hskip2 : ¬ (row = 3 ∧ 3 ≤ col ∧ col ≤ 8) := by omega
      simp [hskip, hskip2, SetTransformations]
  · obtain ⟨s', h1, h2, -⟩ := PrepareScene_meshes env s h
    refine ⟨s', h1, h2, ?_⟩
    rw [h2, List.filter_append]
    simp [MeshCall.isDraw]

/-- C10 on a freshly constructed scene composer with a shader, in surroundings
where one texture file decodes. -/
theorem scene_draw_calls_witness :
    emptyScene.m_pShaderManager ≠ none ∧
    (∃ s', RenderScene exampleMath (exampleMaterial "" 0) emptyScene = some s' ∧
      s'.m_basicMeshes = emptyScene.m_basicMeshes ++
        ([.DrawPlaneMesh] ++ [.DrawBoxMesh] ++ [.DrawBoxMesh]
          ++ (List.replicate 42 .DrawBoxMesh ++ [.DrawBoxMesh])
          ++ [.DrawBoxMesh, .DrawSphereMesh] ++ [.DrawCylinderMesh, .DrawSphereMesh]) ∧
      (s'.m_basicMeshes.filter MeshCall.isDraw).length
        = (emptyScene.m_basicMeshes.filter MeshCall.isDraw).length + 50) ∧
    (∃ s', PrepareScene exampleEnv emptyScene = some s' ∧
      s'.m_basicMeshes = emptyScene.m_basicMeshes ++ [.LoadPlaneMesh, .LoadBoxMesh,
        .LoadSphereMesh, .LoadCylinderMesh, .LoadConeMesh] ∧
      s'.m_basicMeshes.filter MeshCall.isDraw
        = emptyScene.m_basicMeshes.filter MeshCall.isDraw) :=
  have h : emptyScene.m_pShaderManager ≠ none := by simp [emptyScene]
  ⟨h, (scene_draw_calls exampleMath (exampleMaterial "" 0) exampleEnv emptyScene h).1,
    (scene_draw_calls exampleMath (exampleMaterial "" 0) exampleEnv emptyScene h).2.2.2.2⟩

end SceneManager

/-! ## Repeated scrolling -/

namespace ViewManager

variable {K H : Type} [LinearOrderedField K]

/-- The multiplier and the speed after one scroll event. -/
theorem MouseScrollCallback_values (xOffset yOffset : K) (v : ViewManager K H) :
    (MouseScrollCallback xOffset yOffset v).g_MovementSpeedMultiplier
      = max 0.1 (min (v.g_MovementSpeedMultiplier + 0.1 * yOffset) 3.0) ∧
    (MouseScrollCallback xOffset yOffset v).g_pCamera.MovementSpeed
      = 10.0 * (MouseScrollCallback xOffset yOffset v).g_MovementSpeedMultiplier := by
  refine ⟨?_, by simp only [MouseScrollCallback]⟩
  have hcomm : v.g_MovementSpeedMultiplier + yOffset * 0.1
      = v.g_MovementSpeedMultiplier + 0.1 * yOffset := by ring
  simp only [MouseScrollCallback, hcomm]
  by_cases h1 : v.g_MovementSpeedMultiplier + 0.1 * yOffset < 0.1
  · have h2 : ¬ ((0.1 : K) > 3.0) := by norm_num
    have h3 : min (v.g_MovementSpeedMultiplier + 0.1 * yOffset) 3.0
        = v.g_MovementSpeedMultiplier + 0.1 * yOffset :=
      min_eq_left (le_of_lt (lt_trans h1 (by norm_num)))
    simp only [h1, if_true, h2, if_false, h3]
    exact (max_eq_left (le_of_lt h1)).symm
  · by_cases h2 : v.g_MovementSpeedMultiplier + 0.1 * yOffset > 3.0
    · have h3 : min (v.g_MovementSpeedMultiplier + 0.1 * yOffset) 3.0 = 3.0 :=
        min_eq_right (le_of_lt h2)
      simp only [h1, if_false, h2, if_true, h3]
      exact (max_eq_right (by norm_num)).symm
    · have h3 : min (v.g_MovementSpeedMultiplier + 0.1 * yOffset) 3.0
          = v.g_MovementSpeedMultiplier + 0.1 * yOffset :=
        min_eq_left (not_lt.mp h2)
      simp only [h1, if_false, h2, h3]
      exact (max_eq_right (not_lt.mp h1)).symm

/-- After at least one scroll event the speed is 10.0 times the multiplier. -/
theorem scrollEvents_speed (events : List (K × K)) (v : ViewManager K H)
    (hne : events ≠ []) :
    (scrollEvents events v).g_pCamera.MovementSpeed
      = 10.0 * (scrollEvents events v).g_MovementSpeedMultiplier := by
  obtain ⟨front, e, rfl⟩ := (List.eq_nil_or_concat events).resolve_left hne
  unfold scrollEvents
  rw [List.concat_eq_append, List.foldl_append]
  exact (MouseScrollCallback_values e.1 e.2 _).2

/-- The multiplier after scroll events that all have `yOffset = 1`, from a
multiplier in [0.1, 3.0]. -/
theorem scrollEvents_up (events : List (K × K)) (hup : ∀ e ∈ events, e.2 = 1) :
    ∀ v : ViewManager K H,
      0.1 ≤ v.g_MovementSpeedMultiplier → v.g_MovementSpeedMultiplier ≤ 3.0 →
      (scrollEvents events v).g_MovementSpeedMultiplier
        = min 3.0 (v.g_MovementSpeedMultiplier + 0.1 * (events.length : K)) := by
  induction events with
  | nil =>
    intro v _ hhi
    simp only [scrollEvents, List.foldl_nil, List.length_nil, Nat.cast_zero, mul_zero, add_zero]
    exact (min_eq_right hhi).symm
  | cons e events ih =>
    intro v hlo hhi
    have he : e.2 = 1 := hup e (List.mem_cons_self _ _)
    have h1 : (MouseScrollCallback e.1 e.2 v).g_MovementSpeedMultiplier
        = max 0.1 (min (v.g_MovementSpeedMultiplier + 0.1) 3.0) := by
      rw [(MouseScrollCallback_values e.1 e.2 v).1, he, mul_one]
    have hstep : (MouseScrollCallback e.1 e.2 v).g_MovementSpeedMultiplier
        = min (v.g_MovementSpeedMultiplier + 0.1) 3.0 := by
      rw [h1]
      apply max_eq_right
      apply le_min
      · linarith [show (0 : K) ≤ 0.1 by norm_num]
      · norm_num
    have hlo1 : (0.1 : K) ≤ (MouseScrollCallback e.1 e.2 v).g_MovementSpeedMultiplier := by
      rw [h1]; exact le_max_left _ _
    have hhi1 : (MouseScrollCallback e.1 e.2 v).g_MovementSpeedMultiplier ≤ (3.0 : K) := by
      rw [hstep]; exact min_le_right _ _
    have := ih (fun x hx => hup x (List.mem_cons_of_mem _ hx)) (MouseScrollCallback e.1 e.2 v)
      hlo1 hhi1
    show (scrollEvents events (MouseScrollCallback e.1 e.2 v)).g_MovementSpeedMultiplier = _
    rw [this, hstep, List.length_cons, Nat.cast_succ]
    have hn : (0 : K) ≤ (events.length : K) := Nat.cast_nonneg _
    rcases le_total (v.g_MovementSpeedMultiplier + 0.1) 3.0 with hc | hc
    · rw [min_eq_left hc]
      congr 1
      ring
    · rw [min_eq_right hc, min_eq_left, min_eq_left]
      · nlinarith
      · nlinarith

/-- The multiplier after scroll events that all have `yOffset = -1`, from a
multiplier in [0.1, 3.0]. -/
theorem scrollEvents_down (events : List (K × K)) (hdown : ∀ e ∈ events, e.2 = -1) :
    ∀ v : ViewManager K H,
      0.1 ≤ v.g_MovementSpeedMultiplier → v.g_MovementSpeedMultiplier ≤ 3.0 →
      (scrollEvents events v).g_MovementSpeedMultiplier
        = max 0.1 (v.g_MovementSpeedMultiplier - 0.1 * (events.length : K)) := by
  induction events with
  | nil =>
    intro v hlo _
    simp only [scrollEvents, List.foldl_nil, List.length_nil, Nat.cast_zero, mul_zero, sub_zero]
    exact (max_eq_right hlo).symm
  | cons e events ih =>
    intro v hlo hhi
    have he : e.2 = -1 := hdown e (List.mem_cons_self _ _)
    have h1 : (MouseScrollCallback e.1 e.2 v).g_MovementSpeedMultiplier
        = max 0.1 (min (v.g_MovementSpeedMultiplier + 0.1 * -1) 3.0) := by
      rw [(MouseScrollCallback_values e.1 e.2 v).1, he]
    have hstep : (MouseScrollCallback e.1 e.2 v).g_MovementSpeedMultiplier
        = max 0.1 (v.g_MovementSpeedMultiplier - 0.1) := by
      rw [h1]
      congr 1
      rw [min_eq_left]
      · ring
      · linarith [show (0 : K) ≤ 0.1 by norm_num]
    have hlo1 : (0.1 : K) ≤ (MouseScrollCallback e.1 e.2 v).g_MovementSpeedMultiplier := by
      rw [h1]; exact le_max_left _ _
    have hhi1 : (MouseScrollCallback e.1 e.2 v).g_MovementSpeedMultiplier ≤ (3.0 : K) := by
      rw [h1]; exact max_le (by norm_num) (min_le_right _ _)
    have := ih (fun x hx => hdown x (List.mem_cons_of_mem _ hx)) (MouseScrollCallback e.1 e.2 v)
      hlo1 hhi1
    show (scrollEvents events (MouseScrollCallback e.1 e.2 v)).g_MovementSpeedMultiplier = _
    rw [this, hstep, List.length_cons, Nat.cast_succ]
    have hn : (0 : K) ≤ (events.length : K) := Nat.cast_nonneg _
    rcases le_total (0.1 : K) (v.g_MovementSpeedMultiplier - 0.1) with hc | hc
    · rw [max_eq_right hc]
      congr 1
      ring
    · rw [max_eq_left hc, max_eq_left, max_eq_left]
      · nlinarith
      · nlinarith

/-- C11. From a multiplier in [0.1, 3.0], after `n >= 29` consecutive scroll
events with `yOffset = 1` the multiplier is exactly 3.0 and the camera speed
30.0; after `n >= 29` consecutive events with `yOffset = -1` the multiplier is
exactly 0.1 and the speed 1.0 (exact arithmetic; the `xOffset` of each event
is arbitrary). -/
theorem scroll_saturates (v : ViewManager K H) (ups downs : List (K × K))
    (hlo : 0.1 ≤ v.g_MovementSpeedMultiplier) (hhi : v.g_MovementSpeedMultiplier ≤ 3.0)
    (hup : ∀ e ∈ ups, e.2 = 1) (hnup : 29 ≤ ups.length)
    (hdown : ∀ e ∈ downs, e.2 = -1) (hndown : 29 ≤ downs.length) :
    (scrollEvents ups v).g_MovementSpeedMultiplier = 3.0 ∧
    (scrollEvents ups v).g_pCamera.MovementSpeed = 30.0 ∧
    (scrollEvents downs v).g_MovementSpeedMultiplier = 0.1 ∧
    (scrollEvents downs v).g_pCamera.MovementSpeed = 1.0 := by
  have hu : (scrollEvents ups v).g_MovementSpeedMultiplier = 3.0 := by
    rw [scrollEvents_up ups hup v hlo hhi]
    apply min_eq_left
    have hn : (29 : K) ≤ (ups.length : K) := by exact_mod_cast hnup
    norm_num at hlo ⊢
    linarith
  have hd : (scrollEvents downs v).g_MovementSpeedMultiplier = 0.1 := by
    rw [scrollEvents_down downs hdown v hlo hhi]
    apply max_eq_left
    have hn : (29 : K) ≤ (downs.length : K) := by exact_mod_cast hndown
    norm_num at hhi ⊢
    linarith
  have hune : ups ≠ [] := by
    intro h0; rw [h0] at hnup; simp at hnup
  have hdne : downs ≠ [] := by
    intro h0; rw [h0] at hndown; simp at hndown
  refine ⟨hu, ?_, hd, ?_⟩
  · rw [scrollEvents_speed ups v hune, hu]; norm_num
  · rw [scrollEvents_speed downs v hdne, hd]; norm_num

/-- C11 on the freshly constructed view controller (multiplier 1.0) with 29
scroll events up and 29 scroll events down. -/
theorem scroll_saturates_witness :
    (0.1 : ℚ) ≤ exampleView.g_MovementSpeedMultiplier ∧
    exampleView.g_MovementSpeedMultiplier ≤ 3.0 ∧
    (∀ e ∈ List.replicate 29 ((0 : ℚ), (1 : ℚ)), e.2 = 1) ∧
    29 ≤ (List.replicate 29 ((0 : ℚ), (1 : ℚ))).length ∧
    (∀ e ∈ List.replicate 29 ((0 : ℚ), (-1 : ℚ)), e.2 = -1) ∧
    29 ≤ (List.replicate 29 ((0 : ℚ), (-1 : ℚ))).length ∧
    (scrollEvents (List.replicate 29 ((0 : ℚ), (1 : ℚ))) exampleView).g_MovementSpeedMultiplier
      = 3.0 ∧
    (scrollEvents (List.replicate 29 ((0 : ℚ), (1 : ℚ))) exampleView).g_pCamera.MovementSpeed
      = 30.0 ∧
    (scrollEvents (List.replicate 29 ((0 : ℚ), (-1 : ℚ))) exampleView).g_MovementSpeedMultiplier
      = 0.1 ∧
    (scrollEvents (List.replicate 29 ((0 : ℚ), (-1 : ℚ))) exampleView).g_pCamera.MovementSpeed
      = 1.0 :=
  have hlo : (0.1 : ℚ) ≤ exampleView.g_MovementSpeedMultiplier := by
    norm_num [exampleView, init]
  have hhi : exampleView.g_MovementSpeedMultiplier ≤ (3.0 : ℚ) := by
    norm_num [exampleView, init]
  have hup : ∀ e ∈ List.replicate 29 ((0 : ℚ), (1 : ℚ)), e.2 = 1 := by
    intro e he
    rw [List.eq_of_mem_replicate he]
  have hdown : ∀ e ∈ List.replicate 29 ((0 : ℚ), (-1 : ℚ)), e.2 = -1 := by
    intro e he
    rw [List.eq_of_mem_replicate he]
  have hnup : 29 ≤ (List.replicate 29 ((0 : ℚ), (1 : ℚ))).length := by simp
  have hndown : 29 ≤ (List.replicate 29 ((0 : ℚ), (-1 : ℚ))).length := by simp
  ⟨hlo, hhi, hup, hnup, hdown, hndown,
    scroll_saturates exampleView _ _ hlo hhi hup hnup hdown hndown⟩

end ViewManager

/-! ## The view of one frame -/

namespace ViewManager

variable {K H : Type} [LinearOrderedField K]

/-- `ProcessKeyboardEvents` does not touch the shader pointer. -/
theorem ProcessKeyboardEvents_shader (cam : CameraClass K H) (glfwGetKey : Key → KeyState)
    (v : ViewManager K H) :
    (ProcessKeyboardEvents cam glfwGetKey v).m_pShaderManager = v.m_pShaderManager := by
  have hmove : ∀ (key : Key) (direction : Camera_Movement) (w : ViewManager K H),
      (ProcessKeyboardEvents.move cam glfwGetKey key direction w).m_pShaderManager
        = w.m_pShaderManager := by
    intro key direction w
    unfold ProcessKeyboardEvents.move
    split <;> rfl
  have hesc : ∀ w : ViewManager K H,
      (ProcessKeyboardEvents.escape glfwGetKey w).m_pShaderManager = w.m_pShaderManager := by
    intro w
    unfold ProcessKeyboardEvents.escape
    split <;> rfl
  have hP : ∀ w : ViewManager K H,
      (ProcessKeyboardEvents.keyP glfwGetKey w).m_pShaderManager = w.m_pShaderManager := by
    intro w
    unfold ProcessKeyboardEvents.keyP
    split_ifs <;> rfl
  have hO : ∀ w : ViewManager K H,
      (ProcessKeyboardEvents.keyO glfwGetKey w).m_pShaderManager = w.m_pShaderManager := by
    intro w
    unfold ProcessKeyboardEvents.keyO
    split_ifs <;> rfl
  unfold ProcessKeyboardEvents
  simp only [hmove, hO, hP, hesc]

/-- The state `PrepareSceneView` returns when a shader is present: the state
after the keyboard step, with three uniform calls appended. -/
theorem PrepareSceneView_eq (m : glm.Math K) (cam : CameraClass K H) (glfwGetTime : K)
    (glfwGetKey : Key → KeyState) (v : ViewManager K H) (log : List (ShaderCall K))
    (hs : v.m_pShaderManager = some log) :
    PrepareSceneView m cam glfwGetTime glfwGetKey v
      = { ProcessKeyboardEvents cam glfwGetKey
            { v with gDeltaTime := glfwGetTime - v.gLastFrame, gLastFrame := glfwGetTime } with
          m_pShaderManager := some (log ++
            (if (ProcessKeyboardEvents cam glfwGetKey
                { v with gDeltaTime := glfwGetTime - v.gLastFrame,
                         gLastFrame := glfwGetTime }).bOrthographicProjection = true then
              [.setMat4Value "view"
                  (glm.lookAt m ⟨0, 15, 0.1⟩ ⟨0, 0, 0⟩ ⟨0, 0, -1⟩),
                .setMat4Value "projection"
                  (glm.ortho (-10 * (1000 / 800)) (10 * (1000 / 800)) (-10) 10 0.1 100),
                .setVec3Value "viewPosition" ⟨0, 15, 0.1⟩]
            else
              [.setMat4Value "view" (cam.GetViewMatrix (ProcessKeyboardEvents cam glfwGetKey
                  { v with gDeltaTime := glfwGetTime - v.gLastFrame,
                           gLastFrame := glfwGetTime }).g_pCamera),
                .setMat4Value "projection"
                  (glm.perspective m (glm.radians (ProcessKeyboardEvents cam glfwGetKey
                    { v with gDeltaTime := glfwGetTime - v.gLastFrame,
                             gLastFrame := glfwGetTime }).g_pCamera.Zoom) (1000 / 800) 0.1 100),
                .setVec3Value "viewPosition" (ProcessKeyboardEvents cam glfwGetKey
                  { v with gDeltaTime := glfwGetTime - v.gLastFrame,
                           gLastFrame := glfwGetTime }).g_pCamera.Position])) } := by
  have hw : (ProcessKeyboardEvents cam glfwGetKey
      { v with gDeltaTime := glfwGetTime - v.gLastFrame,
               gLastFrame := glfwGetTime }).m_pShaderManager = some log := by
    rw [ProcessKeyboardEvents_shader]; exact hs
  have e1 : ((WINDOW_WIDTH : Int) : K) / ((WINDOW_HEIGHT : Int) : K) = 1000 / 800 := by
    simp [WINDOW_WIDTH, WINDOW_HEIGHT]
  have e2 : (10.0 : K) = 10 := by norm_num
  have e3 : (100.0 : K) = 100 := by norm_num
  have e4 : (0.0 : K) = 0 := by norm_num
  have e5 : (15.0 : K) = 15 := by norm_num
  have e6 : (-1.0 : K) = -1 := by norm_num
  unfold PrepareSceneView
  simp only [hw, e1, e2, e3, e4, e5, e6, g_ViewName, g_ProjectionName]
  by_cases hmode : (ProcessKeyboardEvents cam glfwGetKey
      { v with gDeltaTime := glfwGetTime - v.gLastFrame,
               gLastFrame := glfwGetTime }).bOrthographicProjection = true
  · simp [hmode]
  · simp [hmode]

/-- C12. Take two runs of `PrepareSceneView` with a shader present, on any two
states (so with any two cameras), any camera methods, times and key polls.
If both are in orthographic mode when the matrices are built (the mode flag is
not written after the keyboard step, so this is the flag of the returned
state), both append the same three uniform calls: "view" with the fixed
look-at matrix, "projection" with ortho(-10a, 10a, -10, 10, 0.1, 100) for
a = 1000/800, and "viewPosition" with (0, 15, 0.1); none mentions the camera.
For a third run that is in perspective mode, "viewPosition" is the camera's
`Position` (and "view", "projection" come from the camera). -/
theorem ortho_view_ignores_camera (m : glm.Math K) (cam1 cam2 cam3 : CameraClass K H)
    (t1 t2 t3 : K) (keys1 keys2 keys3 : Key → KeyState) (v1 v2 v3 : ViewManager K H)
    (log1 log2 log3 : List (ShaderCall K))
    (hs1 : v1.m_pShaderManager = some log1) (hs2 : v2.m_pShaderManager = some log2)
    (hs3 : v3.m_pShaderManager = some log3)
    (hmode1 : (PrepareSceneView m cam1 t1 keys1 v1).bOrthographicProjection = true)
    (hmode2 : (PrepareSceneView m cam2 t2 keys2 v2).bOrthographicProjection = true)
    (hmode3 : (PrepareSceneView m cam3 t3 keys3 v3).bOrthographicProjection = false) :
    (PrepareSceneView m cam1 t1 keys1 v1).m_pShaderManager
      = some (log1 ++
          [.setMat4Value "view" (glm.lookAt m ⟨0, 15, 0.1⟩ ⟨0, 0, 0⟩ ⟨0, 0, -1⟩),
            .setMat4Value "projection"
              (glm.ortho (-10 * (1000 / 800)) (10 * (1000 / 800)) (-10) 10 0.1 100),
            .setVec3Value "viewPosition" ⟨0, 15, 0.1⟩]) ∧
    (PrepareSceneView m cam2 t2 keys2 v2).m_pShaderManager
      = some (log2 ++
          [.setMat4Value "view" (glm.lookAt m ⟨0, 15, 0.1⟩ ⟨0, 0, 0⟩ ⟨0, 0, -1⟩),
            .setMat4Value "projection"
              (glm.ortho (-10 * (1000 / 800)) (10 * (1000 / 800)) (-10) 10 0.1 100),
            .setVec3Value "viewPosition" ⟨0, 15, 0.1⟩]) ∧
    (PrepareSceneView m cam3 t3 keys3 v3).m_pShaderManager
      = some (log3 ++
          [.setMat4Value "view"
              (cam3.GetViewMatrix (PrepareSceneView m cam3 t3 keys3 v3).g_pCamera),
            .setMat4Value "projection"
              (glm.perspective m
                (glm.radians (PrepareSceneView m cam3 t3 keys3 v3).g_pCamera.Zoom)
                (1000 / 800) 0.1 100),
            .setVec3Value "viewPosition"
              (PrepareSceneView m cam3 t3 keys3 v3).g_pCamera.Position]) := by
  rw [PrepareSceneView_eq m cam1 t1 keys1 v1 log1 hs1] at hmode1 ⊢
  rw [PrepareSceneView_eq m cam2 t2 keys2 v2 log2 hs2] at hmode2 ⊢
  rw [PrepareSceneView_eq m cam3 t3 keys3 v3 log3 hs3] at hmode3 ⊢
  simp only [] at hmode1 hmode2 hmode3
  refine ⟨?_, ?_, ?_⟩
  · simp only [hmode1, if_true]
  · simp only [hmode2, if_true]
  · simp only [hmode3, Bool.false_eq_true, if_false]

/-- C12 on two view controllers with different cameras, both with O held, and
on a run with no key down. -/
theorem ortho_view_ignores_camera_witness :
    exampleView.m_pShaderManager = some [] ∧ exampleView2.m_pShaderManager = some [] ∧
    (PrepareSceneView exampleMath exampleCameraClass 1 holdO
      exampleView).bOrthographicProjection = true ∧
    (PrepareSceneView exampleMath exampleCameraClass 2 holdO
      exampleView2).bOrthographicProjection = true ∧
    (PrepareSceneView exampleMath exampleCameraClass 3 noKeys
      exampleView2).bOrthographicProjection = false ∧
    (PrepareSceneView exampleMath exampleCameraClass 1 holdO exampleView).m_pShaderManager
      = (PrepareSceneView exampleMath exampleCameraClass 2 holdO
          exampleView2).m_pShaderManager ∧
    (PrepareSceneView exampleMath exampleCameraClass 3 noKeys exampleView2).m_pShaderManager
      = some ([] ++
          [.setMat4Value "view" (exampleCameraClass.GetViewMatrix
              (PrepareSceneView exampleMath exampleCameraClass 3 noKeys exampleView2).g_pCamera),
            .setMat4Value "projection"
              (glm.perspective exampleMath
                (glm.radians
                  (PrepareSceneView exampleMath exampleCameraClass 3 noKeys
                    exampleView2).g_pCamera.Zoom)
                (1000 / 800) 0.1 100),
            .setVec3Value "viewPosition"
              (PrepareSceneView exampleMath exampleCameraClass 3 noKeys
                exampleView2).g_pCamera.Position]) :=
  have hmode1 : (PrepareSceneView exampleMath exampleCameraClass 1 holdO
      exampleView).bOrthographicProjection = true := by decide
  have hmode2 : (PrepareSceneView exampleMath exampleCameraClass 2 holdO
      exampleView2).bOrthographicProjection = true := by decide
  have hmode3 : (PrepareSceneView exampleMath exampleCameraClass 3 noKeys
      exampleView2).bOrthographicProjection = false := by decide
  have h := ortho_view_ignores_camera exampleMath exampleCameraClass exampleCameraClass
    exampleCameraClass 1 2 3 holdO holdO noKeys exampleView exampleView2 exampleView2
    [] [] [] rfl rfl rfl hmode1 hmode2 hmode3
  ⟨rfl, rfl, hmode1, hmode2, hmode3, h.1.trans h.2.1.symm, h.2.2⟩

end ViewManager

/-! ## Mouse movement -/

namespace ViewManager

variable {K H : Type} [LinearOrderedField K]

/-- C13. On the first invocation (the first-mouse flag is set) the camera
receives `ProcessMouseMovement(0, 0)` for every cursor position and whatever
the stored last position was, and the flag becomes false; on a later
invocation (the flag is clear) it receives
`ProcessMouseMovement(0.05 * (x - lastX), 0.05 * (lastY - y))`; after every
invocation the flag is clear and the stored last position is (x, y). -/
theorem mouse_move_offsets (cam : CameraClass K H) (x y : K) (v : ViewManager K H) :
    (v.gFirstMouse = true →
      (Mouse_Position_Callback cam x y v).g_pCamera
        = cam.ProcessMouseMovement v.g_pCamera 0 0) ∧
    (v.gFirstMouse = false →
      (Mouse_Position_Callback cam x y v).g_pCamera
        = cam.ProcessMouseMovement v.g_pCamera
            (0.05 * (x - v.gLastX)) (0.05 * (v.gLastY - y))) ∧
    (Mouse_Position_Callback cam x y v).gFirstMouse = false ∧
    (Mouse_Position_Callback cam x y v).gLastX = x ∧
    (Mouse_Position_Callback cam x y v).gLastY = y := by
  refine ⟨?_, ?_, ?_, ?_, ?_⟩
  · intro h
    simp [Mouse_Position_Callback, h]
  · intro h
    simp [Mouse_Position_Callback, h, mul_comm]
  · cases h : v.gFirstMouse <;> simp [Mouse_Position_Callback, h]
  · cases h : v.gFirstMouse <;> simp [Mouse_Position_Callback, h]
  · cases h : v.gFirstMouse <;> simp [Mouse_Position_Callback, h]

/-- C13 on the freshly constructed view controller (first invocation) and on
the state that invocation leaves (a later invocation). -/
theorem mouse_move_offsets_witness :
    exampleView.gFirstMouse = true ∧
    (Mouse_Position_Callback exampleCameraClass 120 75 exampleView).gFirstMouse = false ∧
    (Mouse_Position_Callback exampleCameraClass 120 75 exampleView).g_pCamera
      = exampleCameraClass.ProcessMouseMovement exampleView.g_pCamera 0 0 ∧
    (Mouse_Position_Callback exampleCameraClass 130 70
        (Mouse_Position_Callback exampleCameraClass 120 75 exampleView)).g_pCamera
      = exampleCameraClass.ProcessMouseMovement
          (Mouse_Position_Callback exampleCameraClass 120 75 exampleView).g_pCamera
          (0.05 * (130 - (Mouse_Position_Callback exampleCameraClass 120 75 exampleView).gLastX))
          (0.05 * ((Mouse_Position_Callback exampleCameraClass 120 75 exampleView).gLastY - 70)) :=
  have h1 : exampleView.gFirstMouse = true := rfl
  have h2 : (Mouse_Position_Callback exampleCameraClass 120 75 exampleView).gFirstMouse = false :=
    (mouse_move_offsets exampleCameraClass 120 75 exampleView).2.2.1
  ⟨h1, h2, (mouse_move_offsets exampleCameraClass 120 75 exampleView).1 h1,
    (mouse_move_offsets exampleCameraClass 130 70
      (Mouse_Position_Callback exampleCameraClass 120 75 exampleView)).2.1 h2⟩

end ViewManager

/-! ## Material and texture uniforms -/

namespace SceneManager

variable {K : Type} [LinearOrderedField K]

/-- On a non-empty material table that lacks the tag, with a shader present,
`SetShaderMaterial` passes the five coefficients of its uninitialised local to
the shader. -/
theorem SetShaderMaterial_miss (material₀ : OBJECT_MATERIAL K) (materialTag : String)
    (s : SceneManager K) (log : List (ShaderCall K))
    (hs : s.m_pShaderManager = some log) (hne : s.m_objectMaterials ≠ [])
    (hmiss : ∀ x ∈ s.m_objectMaterials, x.tag ≠ materialTag) :
    SetShaderMaterial material₀ materialTag s
      = some { s with m_pShaderManager := some (log ++
          [.setVec3Value "material.ambientColor" material₀.ambientColor,
            .setFloatValue "material.ambientStrength" material₀.ambientStrength,
            .setVec3Value "material.diffuseColor" material₀.diffuseColor,
            .setVec3Value "material.specularColor" material₀.specularColor,
            .setFloatValue "material.shininess" material₀.shininess]) } := by
  have hlen : s.m_objectMaterials.length > 0 := List.length_pos.mpr hne
  have hlen0 : ¬ s.m_objectMaterials.length = 0 := by omega
  have hfind : FindMaterial s materialTag material₀ = (true, material₀) := by
    unfold FindMaterial
    rw [if_neg hlen0, FindMaterial_loop_miss _ _ _ _ 0 rfl
      (fun i h _ => hmiss _ (List.get_mem _ _ _))]
  rw [SetShaderMaterial_eq material₀ materialTag s (Or.inl (by rw [hs]; simp))]
  simp [materialCalls, hlen, hfind, shader, hs]

/-- C14 (what the code does). On the empty table `SetShaderMaterial` leaves the
state as it is.  On the table that `DefineObjectMaterials` builds, asked for a
tag that no entry carries, it does not: `FindMaterial` reports true, and the
five `material.*` uniforms are set from the uninitialised local (here holding
9 everywhere). -/
theorem set_material_miss_pushes :
    SetShaderMaterial (exampleMaterial "" 9) "glassMaterial" emptyScene = some emptyScene ∧
    (FindMaterial (DefineObjectMaterials emptyScene) "glassMaterial"
      (exampleMaterial "" 9)).1 = true ∧
    SetShaderMaterial (exampleMaterial "" 9) "glassMaterial" (DefineObjectMaterials emptyScene)
      = some { DefineObjectMaterials emptyScene with m_pShaderManager := some (
          [.setVec3Value "material.ambientColor" ⟨9, 9, 9⟩,
            .setFloatValue "material.ambientStrength" 9,
            .setVec3Value "material.diffuseColor" ⟨9, 9, 9⟩,
            .setVec3Value "material.specularColor" ⟨9, 9, 9⟩,
            .setFloatValue "material.shininess" 9]) } ∧
    SetShaderMaterial (exampleMaterial "" 9) "glassMaterial" (DefineObjectMaterials emptyScene)
      ≠ some (DefineObjectMaterials emptyScene) := by
  have hmats : (DefineObjectMaterials emptyScene).m_objectMaterials
      = [deskMaterial, keyboardMaterial, keyCapMaterial, mouseMaterial, pumpkinMaterial] := by
    rw [DefineObjectMaterials_materials]; rfl
  have hne : (DefineObjectMaterials emptyScene).m_objectMaterials ≠ [] := by
    rw [hmats]; exact List.cons_ne_nil _ _
  have hmiss : ∀ x ∈ (DefineObjectMaterials emptyScene).m_objectMaterials,
      x.tag ≠ "glassMaterial" := by
    intro x hx
    rw [hmats] at hx
    simp only [List.mem_cons, List.mem_singleton, List.not_mem_nil, or_false] at hx
    rcases hx with rfl | rfl | rfl | rfl | rfl <;> decide
  have hs : (DefineObjectMaterials emptyScene).m_pShaderManager = some [] := rfl
  have hpush := SetShaderMaterial_miss (exampleMaterial "" 9) "glassMaterial"
    (DefineObjectMaterials emptyScene) [] hs hne hmiss
  refine ⟨?_, ?_, ?_, ?_⟩
  · simp [SetShaderMaterial, emptyScene]
  · unfold FindMaterial
    rw [if_neg (by rw [hmats]; decide)]
  · rw [hpush]; rfl
  · rw [hpush]
    intro h
    have h2 := congrArg (fun o => o.map (fun s => s.m_pShaderManager.map List.length)) h
    simp [hs] at h2

/-- C15. With a shader present `SetShaderTexture` appends exactly two uniform
calls, in order: `setIntValue("bUseTexture", true)` (the flag reaches the
integer parameter as 1), then `setSampler2DValue("objectTexture", slot)` with
`slot = FindTextureSlot(tag)`, which is -1 when no registered entry carries
the tag.  With a null shader pointer the state is returned as it is.  The
texture table is never changed. -/
theorem set_texture_pushes (textureTag : String) (s : SceneManager K)
    (log : List (ShaderCall K)) :
    (SetShaderTexture textureTag { s with m_pShaderManager := some log }).m_pShaderManager
      = some (log ++ [.setIntValue "bUseTexture" 1,
          .setSampler2DValue "objectTexture" (FindTextureSlot s textureTag)]) ∧
    ((∀ i, i < s.m_loadedTextures → (s.m_textureIDs i).tag ≠ textureTag) →
      (SetShaderTexture textureTag { s with m_pShaderManager := some log }).m_pShaderManager
        = some (log ++ [.setIntValue "bUseTexture" 1,
            .setSampler2DValue "objectTexture" (-1)])) ∧
    SetShaderTexture textureTag { s with m_pShaderManager := none }
      = { s with m_pShaderManager := none } ∧
    (SetShaderTexture textureTag s).m_textureIDs = s.m_textureIDs ∧
    (SetShaderTexture textureTag s).m_loadedTextures = s.m_loadedTextures := by
  have hfirst : (SetShaderTexture textureTag
      { s with m_pShaderManager := some log }).m_pShaderManager
      = some (log ++ [.setIntValue "bUseTexture" 1,
          .setSampler2DValue "objectTexture" (FindTextureSlot s textureTag)]) := by
    simp [SetShaderTexture, shader, g_UseTextureName, g_TextureValueName, FindTextureSlot]
  refine ⟨hfirst, ?_, ?_, rfl, rfl⟩
  · intro hmiss
    rw [hfirst]
    have hslot : FindTextureSlot s textureTag = -1 :=
      FindTextureSlot_loop_miss _ _ _ _ _ 0 rfl (fun i _ hi => hmiss i hi)
    rw [hslot]
  · simp [SetShaderTexture, shader]

/-- C15 on a table of three entries, asked for a tag none of them carries. -/
theorem set_texture_pushes_witness :
    (∀ i, i < exampleScene.m_loadedTextures →
      (exampleScene.m_textureIDs i).tag ≠ "pumpkinTexture") ∧
    (SetShaderTexture "pumpkinTexture"
        { exampleScene with m_pShaderManager := some [] }).m_pShaderManager
      = some ([] ++ [.setIntValue "bUseTexture" 1, .setSampler2DValue "objectTexture" (-1)]) :=
  ⟨exampleScene_lacks_pumpkin,
    (set_texture_pushes "pumpkinTexture" exampleScene []).2.1 exampleScene_lacks_pumpkin⟩

end SceneManager

/-! ## Defining the materials repeatedly -/

namespace SceneManager

variable {K : Type} [LinearOrderedField K]

/-- The length of the material table after `k` calls of
`DefineObjectMaterials`. -/
theorem DefineObjectMaterials_iterate_length (k : Nat) (s : SceneManager K) :
    (DefineObjectMaterials^[k] s).m_objectMaterials.length
      = s.m_objectMaterials.length + 5 * k := by
  induction k with
  | zero => rfl
  | succ k ih =>
    rw [Function.iterate_succ_apply', DefineObjectMaterials_materials, List.length_append, ih]
    simp only [List.length_cons, List.length_nil]
    omega

/-- C16. `DefineObjectMaterials` changes nothing but the material table, to
which it appends exactly five entries, in the order deskMaterial,
keyboardMaterial, keyCapMaterial, mouseMaterial, pumpkinMaterial (pairwise
distinct tags), every earlier entry staying in place.  After `k` calls the
table has grown by `5 * k` entries, so from an empty table it has `5 * k`;
a second call changes the table again, which then holds each tag twice. -/
theorem define_materials_appends (s : SceneManager K) (k : Nat) :
    DefineObjectMaterials s
      = { s with m_objectMaterials := s.m_objectMaterials
            ++ [deskMaterial, keyboardMaterial, keyCapMaterial, mouseMaterial,
                pumpkinMaterial] } ∧
    ([deskMaterial, keyboardMaterial, keyCapMaterial, mouseMaterial,
        pumpkinMaterial] : List (OBJECT_MATERIAL K)).map (fun e => e.tag)
      = ["deskMaterial", "keyboardMaterial", "keyCapMaterial", "mouseMaterial",
          "pumpkinMaterial"] ∧
    ["deskMaterial", "keyboardMaterial", "keyCapMaterial", "mouseMaterial",
      "pumpkinMaterial"].Nodup ∧
    (DefineObjectMaterials^[k] s).m_objectMaterials.length
      = s.m_objectMaterials.length + 5 * k ∧
    (DefineObjectMaterials^[k] { s with m_objectMaterials := [] }).m_objectMaterials.length
      = 5 * k ∧
    (DefineObjectMaterials (DefineObjectMaterials s)).m_objectMaterials
      ≠ (DefineObjectMaterials s).m_objectMaterials ∧
    (DefineObjectMaterials (DefineObjectMaterials
        { s with m_objectMaterials := [] })).m_objectMaterials.map (fun e => e.tag)
      = ["deskMaterial", "keyboardMaterial", "keyCapMaterial", "mouseMaterial",
          "pumpkinMaterial", "deskMaterial", "keyboardMaterial", "keyCapMaterial",
          "mouseMaterial", "pumpkinMaterial"] := by
  refine ⟨?_, ?_, by decide, DefineObjectMaterials_iterate_length k s, ?_, ?_, ?_⟩
  · simp [DefineObjectMaterials]
  · simp [deskMaterial, keyboardMaterial, keyCapMaterial, mouseMaterial, pumpkinMaterial]
  · rw [DefineObjectMaterials_iterate_length]
    simp
  · intro h
    have hlen := congrArg List.length h
    rw [DefineObjectMaterials_materials, List.length_append] at hlen
    simp at hlen
  · rw [DefineObjectMaterials_materials, DefineObjectMaterials_materials]
    simp [deskMaterial, keyboardMaterial, keyCapMaterial, mouseMaterial, pumpkinMaterial]

end SceneManager

/-! ## Texture units -/

namespace SceneManager

variable {K : Type} [LinearOrderedField K]

/-- The loop of `BindGLTextures` over a list of indices: the OpenGL calls it
appends, and the texture table it leaves as it is. -/
theorem BindGLTextures_loop (l : List Nat) :
    ∀ s : SceneManager K,
      (l.foldl (fun s i => glDo [.glActiveTexture i,
          .glBindTexture GLenum.GL_TEXTURE_2D (s.m_textureIDs i).ID] s) s).gl
        = s.gl ++ l.flatMap (fun i => [GLCall.glActiveTexture i,
            GLCall.glBindTexture GLenum.GL_TEXTURE_2D (s.m_textureIDs i).ID]) ∧
      (l.foldl (fun s i => glDo [.glActiveTexture i,
          .glBindTexture GLenum.GL_TEXTURE_2D (s.m_textureIDs i).ID] s) s).m_textureIDs
        = s.m_textureIDs ∧
      (l.foldl (fun s i => glDo [.glActiveTexture i,
          .glBindTexture GLenum.GL_TEXTURE_2D (s.m_textureIDs i).ID] s) s).m_loadedTextures
        = s.m_loadedTextures ∧
      (l.foldl (fun s i => glDo [.glActiveTexture i,
          .glBindTexture GLenum.GL_TEXTURE_2D (s.m_textureIDs i).ID] s) s).m_pShaderManager
        = s.m_pShaderManager := by
  induction l with
  | nil => intro s; simp
  | cons i l ih =>
    intro s
    obtain ⟨h1, h2, h3, h4⟩ := ih (glDo [.glActiveTexture i,
      .glBindTexture GLenum.GL_TEXTURE_2D (s.m_textureIDs i).ID] s)
    rw [List.foldl_cons]
    refine ⟨?_, h2, h3, h4⟩
    rw [h1]
    simp [glDo]

/-- The calls two consecutive units get inside the calls for the units
`0 .. n-1`: those of unit `i` start at position `2 * i`. -/
theorem bind_calls_split (ids : Nat → Nat) (n i : Nat) (hi : i < n) :
    ∃ pre post : List GLCall,
      (List.range n).flatMap (fun j => [GLCall.glActiveTexture j,
          GLCall.glBindTexture GLenum.GL_TEXTURE_2D (ids j)])
        = pre ++ [GLCall.glActiveTexture i, GLCall.glBindTexture GLenum.GL_TEXTURE_2D (ids i)]
            ++ post ∧
      pre.length = 2 * i := by
  induction n with
  | zero => exact absurd hi (Nat.not_lt_zero i)
  | succ n ih =>
    rw [List.range_succ, List.flatMap_append]
    rcases Nat.lt_succ_iff_lt_or_eq.mp hi with hlt | heq
    · obtain ⟨pre, post, h1, h2⟩ := ih hlt
      refine ⟨pre, post ++ [GLCall.glActiveTexture n,
        GLCall.glBindTexture GLenum.GL_TEXTURE_2D (ids n)], ?_, h2⟩
      rw [h1]
      simp
    · subst heq
      refine ⟨(List.range i).flatMap (fun j => [GLCall.glActiveTexture j,
        GLCall.glBindTexture GLenum.GL_TEXTURE_2D (ids j)]), [], ?_, ?_⟩
      · simp
      · clear ih hi
        induction i with
        | zero => rfl
        | succ i ihi =>
          rw [List.range_succ, List.flatMap_append, List.length_append, ihi]
          simp
          omega

/-- The calls for the units `0 .. n-1` are `2 * n` calls: `n` bindings, each
preceded by the selection of its unit. -/
theorem bind_calls_length (ids : Nat → Nat) (n : Nat) :
    ((List.range n).flatMap (fun j => [GLCall.glActiveTexture j,
      GLCall.glBindTexture GLenum.GL_TEXTURE_2D (ids j)])).length = 2 * n := by
  induction n with
  | zero => rfl
  | succ n ih =>
    rw [List.range_succ, List.flatMap_append, List.length_append, ih]
    simp
    omega

/-- `BindGLTextures` leaves the texture table and the shader pointer as they
are, so the lookups give the same answers after it. -/
theorem BindGLTextures_lookups (s : SceneManager K) (tag : String) :
    FindTextureSlot (BindGLTextures s) tag = FindTextureSlot s tag ∧
    (BindGLTextures s).m_pShaderManager = s.m_pShaderManager := by
  obtain ⟨-, h2, h3, h4⟩ := BindGLTextures_loop (List.range s.m_loadedTextures) s
  refine ⟨?_, h4⟩
  unfold FindTextureSlot BindGLTextures
  rw [h2, h3]

/-- C17. With `n` registered entries `BindGLTextures` issues exactly `n`
bindings, the one for `i = 0 .. n-1` being `glActiveTexture(GL_TEXTURE0 + i)`
followed by `glBindTexture(GL_TEXTURE_2D, ID of entry i)`.  Hence for a
registered tag, with `i = FindTextureSlot(tag)`: the calls at positions `2 * i`
and `2 * i + 1` select unit `i` and bind the name stored in entry `i`, which
is the name `FindTextureID(tag)` returns (through `int`), and `i` is the
sampler value `SetShaderTexture(tag)` sets afterwards. -/
theorem bind_units (s : SceneManager K) (tag : String) (log : List (ShaderCall K)) :
    (BindGLTextures s).gl
      = s.gl ++ (List.range s.m_loadedTextures).flatMap (fun i =>
          [GLCall.glActiveTexture i,
            GLCall.glBindTexture GLenum.GL_TEXTURE_2D (s.m_textureIDs i).ID]) ∧
    ((List.range s.m_loadedTextures).flatMap (fun i =>
        [GLCall.glActiveTexture i,
          GLCall.glBindTexture GLenum.GL_TEXTURE_2D (s.m_textureIDs i).ID])).length
      = 2 * s.m_loadedTextures ∧
    ((∃ i, i < s.m_loadedTextures ∧ (s.m_textureIDs i).tag = tag) →
      ∃ (i : Nat) (pre post : List GLCall),
        i < s.m_loadedTextures ∧
        FindTextureSlot s tag = (i : Int) ∧
        FindTextureID s tag = GLuint.toInt (s.m_textureIDs i).ID ∧
        (BindGLTextures s).gl
          = s.gl ++ (pre ++ [GLCall.glActiveTexture i,
              GLCall.glBindTexture GLenum.GL_TEXTURE_2D (s.m_textureIDs i).ID] ++ post) ∧
        pre.length = 2 * i ∧
        (SetShaderTexture tag
            (BindGLTextures { s with m_pShaderManager := some log })).m_pShaderManager
          = some (log ++ [.setIntValue "bUseTexture" 1,
              .setSampler2DValue "objectTexture" (i : Int)])) := by
  classical
  have hgl := (BindGLTextures_loop (List.range s.m_loadedTextures) s).1
  refine ⟨hgl, bind_calls_length _ _, ?_⟩
  intro hex
  have hspec := Nat.find_spec hex
  have hmin : ∀ j, j < Nat.find hex → (s.m_textureIDs j).tag ≠ tag := by
    intro j hj hjt
    exact Nat.find_min hex hj ⟨lt_trans hj hspec.1, hjt⟩
  have hslot : FindTextureSlot s tag = (Nat.find hex : Int) :=
    FindTextureSlot_loop_hit _ _ _ _ _ hspec.1 hspec.2 _ 0 rfl (Nat.zero_le _)
      (fun j _ hji => hmin j hji)
  have hid : FindTextureID s tag = GLuint.toInt (s.m_textureIDs (Nat.find hex)).ID :=
    FindTextureID_loop_hit _ _ _ _ _ hspec.1 hspec.2 _ 0 rfl (Nat.zero_le _)
      (fun j _ hji => hmin j hji)
  obtain ⟨pre, post, hsplit, hpre⟩ :=
    bind_calls_split (fun j => (s.m_textureIDs j).ID) s.m_loadedTextures (Nat.find hex) hspec.1
  refine ⟨Nat.find hex, pre, post, hspec.1, hslot, hid, ?_, hpre, ?_⟩
  · show (BindGLTextures s).gl = _
    unfold BindGLTextures
    rw [hgl, hsplit]
  · obtain ⟨hl, hsh⟩ := BindGLTextures_lookups { s with m_pShaderManager := some log } tag
    have hslot2 : FindTextureSlot { s with m_pShaderManager := some log } tag
        = (Nat.find hex : Int) := hslot
    simp only [SetShaderTexture, shader, hl, hsh, hslot2, Option.map_some', g_UseTextureName,
      g_TextureValueName]

/-- C17 on a table of three entries; the tag asked for is carried by entries 0
and 2. -/
theorem bind_units_witness :
    (∃ i, i < exampleScene.m_loadedTextures ∧ (exampleScene.m_textureIDs i).tag = "desk") ∧
    (BindGLTextures exampleScene).gl
      = exampleScene.gl ++ (List.range exampleScene.m_loadedTextures).flatMap (fun i =>
          [GLCall.glActiveTexture i,
            GLCall.glBindTexture GLenum.GL_TEXTURE_2D (exampleScene.m_textureIDs i).ID]) ∧
    (∃ (i : Nat) (pre post : List GLCall),
        i < exampleScene.m_loadedTextures ∧
        FindTextureSlot exampleScene "desk" = (i : Int) ∧
        FindTextureID exampleScene "desk" = GLuint.toInt (exampleScene.m_textureIDs i).ID ∧
        (BindGLTextures exampleScene).gl
          = exampleScene.gl ++ (pre ++ [GLCall.glActiveTexture i,
              GLCall.glBindTexture GLenum.GL_TEXTURE_2D (exampleScene.m_textureIDs i).ID]
              ++ post) ∧
        pre.length = 2 * i ∧
        (SetShaderTexture "desk"
            (BindGLTextures { exampleScene with m_pShaderManager := some [] })).m_pShaderManager
          = some ([] ++ [.setIntValue "bUseTexture" 1,
              .setSampler2DValue "objectTexture" (i : Int)])) :=
  have hex : ∃ i, i < exampleScene.m_loadedTextures ∧
      (exampleScene.m_textureIDs i).tag = "desk" := ⟨2, by decide, by decide⟩
  ⟨hex, (bind_units exampleScene "desk" []).1, (bind_units exampleScene "desk" []).2.2 hex⟩

end SceneManager

/-! ## The projection-mode state machine -/

namespace ViewManager

variable {K H : Type} [LinearOrderedField K]

/-- One call of `ProcessKeyboardEvents`: each latch becomes whether its key is
down, and the mode is set by a fresh press of O, else by a fresh press of P,
else kept. -/
theorem ProcessKeyboardEvents_mode (cam : CameraClass K H) (glfwGetKey : Key → KeyState)
    (v : ViewManager K H) :
    (ProcessKeyboardEvents cam glfwGetKey v).pKeyPressed
      = decide (glfwGetKey Key.GLFW_KEY_P = KeyState.GLFW_PRESS) ∧
    (ProcessKeyboardEvents cam glfwGetKey v).oKeyPressed
      = decide (glfwGetKey Key.GLFW_KEY_O = KeyState.GLFW_PRESS) ∧
    (ProcessKeyboardEvents cam glfwGetKey v).bOrthographicProjection
      = (if (decide (glfwGetKey Key.GLFW_KEY_O = KeyState.GLFW_PRESS) && !v.oKeyPressed)
            = true then true
          else if (decide (glfwGetKey Key.GLFW_KEY_P = KeyState.GLFW_PRESS) && !v.pKeyPressed)
            = true then false
          else v.bOrthographicProjection) := by
  obtain ⟨h1, h2, h3, -⟩ := ProcessKeyboardEvents_projection cam glfwGetKey v
  obtain ⟨e1, e2, e3, -⟩ := escape_projection glfwGetKey v
  rw [h1, h2, h3]
  unfold ProcessKeyboardEvents.keyO ProcessKeyboardEvents.keyP
  cases hP : glfwGetKey Key.GLFW_KEY_P <;> cases hO : glfwGetKey Key.GLFW_KEY_O <;>
    cases hp : v.pKeyPressed <;> cases ho : v.oKeyPressed <;>
    simp [e1, e2, e3, hp, ho]

/-- The state after a sequence of frames followed by one more frame. -/
theorem frames_concat (cam : CameraClass K H) (polls : List (Key → KeyState))
    (p : Key → KeyState) (v : ViewManager K H) :
    frames cam (polls ++ [p]) v = ProcessKeyboardEvents cam p (frames cam polls v) := by
  unfold frames
  rw [List.foldl_append]
  rfl

/-- The last frame of a sequence that ends with the frame `p`. -/
theorem lastDown_concat (polls : List (Key → KeyState)) (p : Key → KeyState) (key : Key) :
    lastDown (polls ++ [p]) key = decide (p key = KeyState.GLFW_PRESS) := by
  unfold lastDown
  rw [List.getLast?_concat]

/-- A fresh press in the frame appended to a sequence: the key is down in it
and was not down in the last frame before. -/
theorem freshPress_concat_last (polls : List (Key → KeyState)) (p : Key → KeyState)
    (key : Key) :
    freshPress (polls ++ [p]) key polls.length
      = (decide (p key = KeyState.GLFW_PRESS) && !lastDown polls key) := by
  unfold freshPress lastDown
  rw [List.getElem?_concat_length]
  rcases List.eq_nil_or_concat polls with hnil | ⟨front, q, hq⟩
  · subst hnil
    simp
  · subst hq
    have hlen : (front.concat q).length - 1 = front.length := by simp
    have hprev : (front.concat q ++ [p])[(front.concat q).length - 1]? = some q := by
      rw [hlen, List.concat_eq_append,
        List.getElem?_append_left (by simp), List.getElem?_concat_length]
    have hlast : (front.concat q).getLast? = some q := by
      rw [List.concat_eq_append, List.getLast?_concat]
    simp only [hprev, hlast]
    have hne : ((front.concat q).length == 0) = false := by simp
    rw [hne, Bool.false_or]
    cases hk : q key <;> simp

/-- Fresh presses in the frames of a sequence are not changed by appending a
frame. -/
theorem freshPress_concat_before (polls : List (Key → KeyState)) (p : Key → KeyState)
    (key : Key) (i : Nat) (hi : i < polls.length) :
    freshPress (polls ++ [p]) key i = freshPress polls key i := by
  unfold freshPress
  rw [List.getElem?_append_left hi, List.getElem?_append_left (by omega)]

/-- Fresh presses in the first `n` frames of a sequence are those of the
sequence itself. -/
theorem freshPress_take (polls : List (Key → KeyState)) (key : Key) (n i : Nat)
    (hi : i < n) :
    freshPress (polls.take n) key i = freshPress polls key i := by
  unfold freshPress
  rw [List.getElem?_take_of_lt hi, List.getElem?_take_of_lt (by omega)]

/-- From perspective mode with both latches clear: after any sequence of
frames the latches tell whether their keys were down in the last frame, and
the mode is orthographic exactly when some frame has a fresh press of O with
no fresh press of P in a later frame. -/
theorem frames_mode (cam : CameraClass K H) (v : ViewManager K H)
    (hmode : v.bOrthographicProjection = false) (hp : v.pKeyPressed = false)
    (ho : v.oKeyPressed = false) (polls : List (Key → KeyState)) :
    (frames cam polls v).pKeyPressed = lastDown polls Key.GLFW_KEY_P ∧
    (frames cam polls v).oKeyPressed = lastDown polls Key.GLFW_KEY_O ∧
    ((frames cam polls v).bOrthographicProjection = true ↔
      ∃ i, i < polls.length ∧ freshPress polls Key.GLFW_KEY_O i = true ∧
        ∀ j, i < j → j < polls.length → freshPress polls Key.GLFW_KEY_P j = false) := by
  induction polls using List.reverseRecOn with
  | nil =>
    refine ⟨hp, ho, ?_⟩
    simp [frames, hmode]
  | append_singleton polls p ih =>
    obtain ⟨ihp, iho, ihm⟩ := ih
    obtain ⟨s1, s2, s3⟩ := ProcessKeyboardEvents_mode cam p (frames cam polls v)
    rw [frames_concat, lastDown_concat, lastDown_concat]
    refine ⟨s1, s2, ?_⟩
    rw [s3, iho, ihp, ← freshPress_concat_last polls p Key.GLFW_KEY_O,
      ← freshPress_concat_last polls p Key.GLFW_KEY_P]
    have hlen : (polls ++ [p]).length = polls.length + 1 := by simp
    rw [hlen]
    by_cases hO : freshPress (polls ++ [p]) Key.GLFW_KEY_O polls.length = true
    · rw [if_pos hO]
      refine ⟨fun _ => ⟨polls.length, Nat.lt_succ_self _, hO, ?_⟩, fun _ => rfl⟩
      intro j hj hj2
      omega
    · rw [if_neg hO]
      by_cases hP : freshPress (polls ++ [p]) Key.GLFW_KEY_P polls.length = true
      · rw [if_pos hP]
        constructor
        · intro h; exact absurd h (by simp)
        · rintro ⟨i, hi, hfO, hlater⟩
          have hne : i ≠ polls.length := by
            intro h; rw [h] at hfO; exact hO hfO
          have hlt : i < polls.length := by omega
          have := hlater polls.length hlt (Nat.lt_succ_self _)
          rw [hP] at this
          exact absurd this (by simp)
      · rw [if_neg hP, ihm]
        have hPf : freshPress (polls ++ [p]) Key.GLFW_KEY_P polls.length = false := by
          simpa using hP
        constructor
        · rintro ⟨i, hi, hfO, hlater⟩
          refine ⟨i, by omega, ?_, ?_⟩
          · rw [freshPress_concat_before polls p _ i hi]; exact hfO
          · intro j hij hj
            rcases Nat.lt_succ_iff_lt_or_eq.mp hj with hjl | hje
            · rw [freshPress_concat_before polls p _ j hjl]; exact hlater j hij hjl
            · rw [hje]; exact hPf
        · rintro ⟨i, hi, hfO, hlater⟩
          have hne : i ≠ polls.length := by
            intro h; rw [h] at hfO; exact hO hfO
          have hlt : i < polls.length := by omega
          refine ⟨i, hlt, ?_, ?_⟩
          · rw [← freshPress_concat_before polls p _ i hlt]; exact hfO
          · intro j hij hj
            rw [← freshPress_concat_before polls p _ j hj]
            exact hlater j hij (by omega)

/-- The first `k + 1` frames of a sequence end with frame `k`. -/
theorem lastDown_take (polls : List (Key → KeyState)) (key : Key) (k : Nat)
    (p : Key → KeyState) (hk : polls[k]? = some p) :
    lastDown (polls.take (k + 1)) key = decide (p key = KeyState.GLFW_PRESS) := by
  rw [List.take_succ, hk]
  exact lastDown_concat _ p key

/-- C18. Start from the state the constructor leaves (perspective, both
latches clear) and run `ProcessKeyboardEvents` once per frame on any finite
sequence of polls.  After each frame `k`, each of the two latches equals
whether its key was down in frame `k`.  The mode after the sequence is
orthographic if and only if some frame has a fresh press of O and no later
frame has a fresh press of P.  After a frame with fresh presses of both P and
O the mode is orthographic.  With no fresh press of P or O in any frame the
mode stays perspective. -/
theorem projection_state_machine (cam : CameraClass K H)
    (pShaderManager : Option (List (ShaderCall K))) (window : GLFWwindow) (hidden : H)
    (polls : List (Key → KeyState)) :
    (∀ (k : Nat) (p : Key → KeyState), polls[k]? = some p →
      (frames cam (polls.take (k + 1)) (init pShaderManager window hidden)).pKeyPressed
        = decide (p Key.GLFW_KEY_P = KeyState.GLFW_PRESS) ∧
      (frames cam (polls.take (k + 1)) (init pShaderManager window hidden)).oKeyPressed
        = decide (p Key.GLFW_KEY_O = KeyState.GLFW_PRESS)) ∧
    ((frames cam polls (init pShaderManager window hidden)).bOrthographicProjection = true ↔
      ∃ i, i < polls.length ∧ freshPress polls Key.GLFW_KEY_O i = true ∧
        ∀ j, i < j → j < polls.length → freshPress polls Key.GLFW_KEY_P j = false) ∧
    (∀ i, i < polls.length → freshPress polls Key.GLFW_KEY_P i = true →
      freshPress polls Key.GLFW_KEY_O i = true →
      (frames cam (polls.take (i + 1))
        (init pShaderManager window hidden)).bOrthographicProjection = true) ∧
    ((∀ i, i < polls.length → freshPress polls Key.GLFW_KEY_P i = false ∧
        freshPress polls Key.GLFW_KEY_O i = false) →
      (frames cam polls (init pShaderManager window hidden)).bOrthographicProjection
        = false) := by
  have hall := fun l => frames_mode cam (init pShaderManager window hidden) rfl rfl rfl l
  refine ⟨?_, (hall polls).2.2, ?_, ?_⟩
  · intro k p hk
    obtain ⟨h1, h2, -⟩ := hall (polls.take (k + 1))
    rw [h1, h2, lastDown_take polls _ k p hk, lastDown_take polls _ k p hk]
    exact ⟨rfl, rfl⟩
  · intro i hi _ hfO
    rw [(hall (polls.take (i + 1))).2.2]
    have hlen : (polls.take (i + 1)).length = i + 1 := by
      rw [List.length_take]; omega
    refine ⟨i, by omega, ?_, ?_⟩
    · rw [freshPress_take polls _ (i + 1) i (Nat.lt_succ_self _)]; exact hfO
    · intro j hij hj
      omega
  · intro hnone
    cases hm : (frames cam polls (init pShaderManager window hidden)).bOrthographicProjection
    · rfl
    · obtain ⟨i, hi, hfO, -⟩ := (hall polls).2.2.mp hm
      rw [(hnone i hi).2] at hfO
      exact absurd hfO (by simp)

/-- C18 on the frames: O held, nothing held, P and O pressed together. -/
theorem projection_state_machine_witness :
    [holdO, noKeys, holdPO][2]? = some holdPO ∧
    2 < [holdO, noKeys, holdPO].length ∧
    freshPress [holdO, noKeys, holdPO] Key.GLFW_KEY_P 2 = true ∧
    freshPress [holdO, noKeys, holdPO] Key.GLFW_KEY_O 2 = true ∧
    ((frames exampleCameraClass ([holdO, noKeys, holdPO].take (2 + 1))
        (init (some []) ⟨false⟩ ())).pKeyPressed
        = decide (holdPO Key.GLFW_KEY_P = KeyState.GLFW_PRESS) ∧
      (frames exampleCameraClass ([holdO, noKeys, holdPO].take (2 + 1))
        (init (some []) ⟨false⟩ ())).oKeyPressed
        = decide (holdPO Key.GLFW_KEY_O = KeyState.GLFW_PRESS)) ∧
    (frames exampleCameraClass ([holdO, noKeys, holdPO].take (2 + 1))
      (init (some []) ⟨false⟩ ())).bOrthographicProjection = true ∧
    ((∀ i, i < [noKeys, noKeys].length →
        freshPress [noKeys, noKeys] Key.GLFW_KEY_P i = false ∧
        freshPress [noKeys, noKeys] Key.GLFW_KEY_O i = false) ∧
      (frames exampleCameraClass [noKeys, noKeys]
        (init (some []) ⟨false⟩ ())).bOrthographicProjection = false) :=
  have hk : [holdO, noKeys, holdPO][2]? = some holdPO := rfl
  have hi : 2 < [holdO, noKeys, holdPO].length := by decide
  have hfP : freshPress [holdO, noKeys, holdPO] Key.GLFW_KEY_P 2 = true := by decide
  have hfO : freshPress [holdO, noKeys, holdPO] Key.GLFW_KEY_O 2 = true := by decide
  have hnone : ∀ i, i < [noKeys, noKeys].length →
      freshPress [noKeys, noKeys] Key.GLFW_KEY_P i = false ∧
      freshPress [noKeys, noKeys] Key.GLFW_KEY_O i = false := by
    intro i hlt
    have hlt2 : i < 2 := hlt
    interval_cases i <;> decide
  ⟨hk, hi, hfP, hfO,
    (projection_state_machine exampleCameraClass (some []) ⟨false⟩ ()
      [holdO, noKeys, holdPO]).1 2 holdPO hk,
    (projection_state_machine exampleCameraClass (some []) ⟨false⟩ ()
      [holdO, noKeys, holdPO]).2.2.1 2 hi hfP hfO,
    hnone,
    (projection_state_machine exampleCameraClass (some []) ⟨false⟩ ()
      [noKeys, noKeys]).2.2.2 hnone⟩

end ViewManager
